import Mathlib

/-!
Verification of the ai-designer plugin core: the JSON truncation-repair
pipeline (`src/shared/utils/jsonRepair.ts`), the style/variable lookup caches
(`src/plugin/renderer/styleCache.ts`), the paint conversion with variable
binding (`src/plugin/renderer/paints.ts`), the element renderer
(`src/plugin/renderer/elements.ts`), the design-system alias resolution
(`src/plugin/designSystem.ts`), the color utilities
(`src/shared/utils/colors.ts`) and the system prompt builder
(`src/ui/api/prompts.ts`), shallowly embedded in Lean.

JavaScript strings are modelled as `List Char`; JavaScript numbers as `ℚ`
(the numeric values arising in these code paths are exact decimals, where
IEEE doubles and rationals agree in value and in printed form); fallible
code returns `Option` or `Except`.  `JSON.parse` is modelled by an
executable recursive-descent function over the JSON grammar (whitespace,
null/bool, strings with escapes, numbers without leading zeros, arrays,
objects); exceptions are `none`.
-/

namespace AIDesigner

/-- A JavaScript value produced by `JSON.parse`: the JSON value grammar.
Object members are kept in textual order; duplicate keys are kept, and
property access (`getProp`) returns the last occurrence, as JS assignment
order dictates. -/
inductive JVal where
  | jnull
  | jbool (b : Bool)
  | jnum (q : ℚ)
  | jstr (s : String)
  | jarr (elems : List JVal)
  | jobj (members : List (String × JVal))
deriving Repr

/-- Whitespace recognized by the JSON grammar (and, on the ASCII inputs
that occur here, by `String.prototype.trim`). -/
def jsWs (c : Char) : Bool :=
  c == ' ' || c == '\n' || c == '\t' || c == '\r'

/-- `text.trim()` on ASCII text: drop whitespace from both ends. -/
def jsTrim (cs : List Char) : List Char :=
  ((cs.dropWhile jsWs).reverse.dropWhile jsWs).reverse

/-- JS property access `v.key` for a parsed value: `undefined` (`none`) on
non-objects; on objects the last binding of the key wins. -/
def getProp (v : JVal) (key : String) : Option JVal :=
  match v with
  | .jobj ms => ms.foldl (fun acc kv => if kv.1 == key then some kv.2 else acc) none
  | _ => none

/-- JS truthiness of a possibly-`undefined` value: `undefined`, `null`,
`false`, `0` and `""` are falsy; every object (arrays included) is truthy. -/
def jsTruthy (v : Option JVal) : Bool :=
  match v with
  | none => false
  | some .jnull => false
  | some (.jbool b) => b
  | some (.jnum q) => !(q.num == 0)
  | some (.jstr s) => !(s == "")
  | some (.jarr _) => true
  | some (.jobj _) => true

/-- JS truthiness of a possibly-`undefined` string property. -/
def strTruthy (s : Option String) : Bool :=
  match s with
  | some s => !(s == "")
  | none => false

/-! ### A model of `JSON.parse` -/

def jpDigit (c : Char) : Bool := '0' ≤ c && c ≤ '9'

def jpSpan (cs : List Char) : List Char × List Char :=
  (cs.takeWhile jpDigit, cs.dropWhile jpDigit)

def jpSkipWs (cs : List Char) : List Char := cs.dropWhile jsWs

def jpDigitsToNat (ds : List Char) : Nat :=
  ds.foldl (fun acc c => acc * 10 + (c.toNat - '0'.toNat)) 0

def jpHexVal (c : Char) : Option Nat :=
  let n := c.toNat
  if 48 ≤ n && n ≤ 57 then some (n - 48)
  else if 97 ≤ n && n ≤ 102 then some (n - 87)
  else if 65 ≤ n && n ≤ 70 then some (n - 55)
  else none

def jpEscChar : Char → Option Char
  | '"' => some '"'
  | '\\' => some '\\'
  | '/' => some '/'
  | 'b' => some (Char.ofNat 8)
  | 'f' => some (Char.ofNat 12)
  | 'n' => some '\n'
  | 'r' => some '\r'
  | 't' => some '\t'
  | _ => none

/-- Body of a JSON string after the opening quote.  Unescaped control
characters are a syntax error, as in `JSON.parse`. -/
def jpStrAux : List Char → List Char → Option (String × List Char)
  | acc, '"' :: rest => some (String.mk acc.reverse, rest)
  | acc, '\\' :: 'u' :: a :: b :: c :: d :: rest =>
    match jpHexVal a, jpHexVal b, jpHexVal c, jpHexVal d with
    | some va, some vb, some vc, some vd =>
      jpStrAux (Char.ofNat (((va * 16 + vb) * 16 + vc) * 16 + vd) :: acc) rest
    | _, _, _, _ => none
  | acc, '\\' :: e :: rest =>
    match jpEscChar e with
    | some ch => jpStrAux (ch :: acc) rest
    | none => none
  | acc, c :: rest =>
    if c.toNat < 32 then none else jpStrAux (c :: acc) rest
  | _, [] => none

/-- The exact rational `sgn * mant * 10 ^ scale`, built through `mkRat` so
that it evaluates by kernel integer arithmetic. -/
def decimalRat (sgn : Int) (mant : Nat) (scale : Int) : ℚ :=
  if 0 ≤ scale then mkRat (sgn * mant * (10 : Int) ^ scale.toNat) 1
  else mkRat (sgn * mant) ((10 : Nat) ^ (-scale).toNat)

/-- The optional exponent part of a JSON number: sign, exponent digits,
the rest of the input, and whether the part (if present) is well-formed. -/
def jpExpPart (cs : List Char) : Int × List Char × List Char × Bool :=
  match cs with
  | 'e' :: '+' :: r => (1, (jpSpan r).1, (jpSpan r).2, !((jpSpan r).1.isEmpty))
  | 'e' :: '-' :: r => (-1, (jpSpan r).1, (jpSpan r).2, !((jpSpan r).1.isEmpty))
  | 'e' :: r => (1, (jpSpan r).1, (jpSpan r).2, !((jpSpan r).1.isEmpty))
  | 'E' :: '+' :: r => (1, (jpSpan r).1, (jpSpan r).2, !((jpSpan r).1.isEmpty))
  | 'E' :: '-' :: r => (-1, (jpSpan r).1, (jpSpan r).2, !((jpSpan r).1.isEmpty))
  | 'E' :: r => (1, (jpSpan r).1, (jpSpan r).2, !((jpSpan r).1.isEmpty))
  | _ => (1, [], cs, true)

/-- A JSON number: optional minus, an integer part without leading zeros,
an optional fraction, an optional exponent. -/
def jpNumber (cs : List Char) : Option (ℚ × List Char) :=
  let (neg, cs1) :=
    match cs with
    | '-' :: r => (true, r)
    | _ => (false, cs)
  let intPart : Option (List Char × List Char) :=
    match cs1 with
    | '0' :: r => some (['0'], r)
    | c :: _ =>
      if jpDigit c && !(c == '0') then some (jpSpan cs1) else none
    | [] => none
  match intPart with
  | none => none
  | some (ids, cs2) =>
    let (fds, cs3) :=
      match cs2 with
      | '.' :: r => jpSpan r
      | _ => ([], cs2)
    let fracOk := match cs2 with | '.' :: _ => !fds.isEmpty | _ => true
    let (expSign, expDs, cs4, expOk) := jpExpPart cs3
    if fracOk && expOk then
      let mant : Nat := jpDigitsToNat (ids ++ fds)
      let scale : Int := expSign * (jpDigitsToNat expDs : Int) - (fds.length : Int)
      some (decimalRat (if neg then -1 else 1) mant scale, cs4)
    else none

mutual

/-- One JSON value (fuel-indexed recursive descent). -/
def jpVal (fuel : Nat) (cs : List Char) : Option (JVal × List Char) :=
  match fuel with
  | 0 => none
  | f + 1 =>
    match jpSkipWs cs with
    | 'n' :: 'u' :: 'l' :: 'l' :: r => some (.jnull, r)
    | 't' :: 'r' :: 'u' :: 'e' :: r => some (.jbool true, r)
    | 'f' :: 'a' :: 'l' :: 's' :: 'e' :: r => some (.jbool false, r)
    | '"' :: r =>
      match jpStrAux [] r with
      | some (s, r2) => some (.jstr s, r2)
      | none => none
    | '[' :: r =>
      match jpSkipWs r with
      | ']' :: r2 => some (.jarr [], r2)
      | r2 =>
        match jpElems f r2 with
        | some (es, r3) => some (.jarr es, r3)
        | none => none
    | '{' :: r =>
      match jpSkipWs r with
      | '}' :: r2 => some (.jobj [], r2)
      | r2 =>
        match jpMembers f r2 with
        | some (ms, r3) => some (.jobj ms, r3)
        | none => none
    | c :: r =>
      if c == '-' || jpDigit c then
        match jpNumber (c :: r) with
        | some (q, r2) => some (.jnum q, r2)
        | none => none
      else none
    | [] => none

/-- One-or-more comma-separated array elements, then the closing bracket. -/
def jpElems (fuel : Nat) (cs : List Char) : Option (List JVal × List Char) :=
  match fuel with
  | 0 => none
  | f + 1 =>
    match jpVal f cs with
    | none => none
    | some (v, r) =>
      match jpSkipWs r with
      | ',' :: r2 =>
        match jpElems f r2 with
        | some (vs, r3) => some (v :: vs, r3)
        | none => none
      | ']' :: r2 => some ([v], r2)
      | _ => none

/-- One-or-more comma-separated object members, then the closing brace. -/
def jpMembers (fuel : Nat) (cs : List Char) :
    Option (List (String × JVal) × List Char) :=
  match fuel with
  | 0 => none
  | f + 1 =>
    match jpSkipWs cs with
    | '"' :: r =>
      match jpStrAux [] r with
      | none => none
      | some (key, r1) =>
        match jpSkipWs r1 with
        | ':' :: r2 =>
          match jpVal f r2 with
          | none => none
          | some (v, r3) =>
            match jpSkipWs r3 with
            | ',' :: r4 =>
              match jpMembers f r4 with
              | some (ms, r5) => some ((key, v) :: ms, r5)
              | none => none
            | '}' :: r4 => some ([(key, v)], r4)
            | _ => none
        | _ => none
    | _ => none

end

/-- `JSON.parse(s)`: the whole input must be one JSON value surrounded by
whitespace; a syntax error is `none`. -/
def jsonParse (cs : List Char) : Option JVal :=
  match jpVal (cs.length + 1) cs with
  | some (v, rest) => if (jpSkipWs rest).isEmpty then some v else none
  | none => none

/-! ### `jsonRepair.ts`: `findLastCompleteIndex`, `repairTruncatedJson`,
`parseDesignJson` -/

/-- Scanner state of `findLastCompleteIndex`: last index at which a value
was complete (`-1` initially, as in the source), open-brace and
open-bracket counts, and the in-string/escape flags. -/
structure ScanState where
  lastGoodIndex : Int
  braceCount : Int
  bracketCount : Int
  inString : Bool
  escapeNext : Bool

/-- One character step of the `findLastCompleteIndex` loop
(`jsonRepair.ts` lines 17-50), at string index `i`. -/
def flciStep (st : ScanState) (i : Nat) (c : Char) : ScanState :=
  if st.escapeNext then { st with escapeNext := false }
  else if c == '\\' then { st with escapeNext := true }
  else if c == '"' then
    let inS := !st.inString
    { st with inString := inS,
              lastGoodIndex := if !inS then (i : Int) else st.lastGoodIndex }
  else if st.inString then st
  else if c == '{' then { st with braceCount := st.braceCount + 1 }
  else if c == '}' then
    let bc := st.braceCount - 1
    { st with braceCount := bc,
              lastGoodIndex := if 0 ≤ bc then (i : Int) else st.lastGoodIndex }
  else if c == '[' then { st with bracketCount := st.bracketCount + 1 }
  else if c == ']' then
    let kc := st.bracketCount - 1
    { st with bracketCount := kc,
              lastGoodIndex := if 0 ≤ kc then (i : Int) else st.lastGoodIndex }
  else if c == ',' || c == ':' then { st with lastGoodIndex := (i : Int) }
  else if jpDigit c then { st with lastGoodIndex := (i : Int) }
  else st

def flciGo : ScanState → Nat → List Char → Int
  | st, _, [] => st.lastGoodIndex
  | st, i, c :: rest => flciGo (flciStep st i c) (i + 1) rest

/-- `findLastCompleteIndex(json)`: the last index where the scanner saw a
complete JSON value (a closed string, a balanced `}` or `]`, a separator,
or a digit); `-1` when none. -/
def findLastCompleteIndex (json : List Char) : Int :=
  flciGo ⟨-1, 0, 0, false, false⟩ 0 json

/-- Bracket/brace/string-state counter of `repairTruncatedJson`
(`jsonRepair.ts` lines 67-92). -/
structure CountState where
  braceCount : Int
  bracketCount : Int
  inString : Bool
  escapeNext : Bool

def countStep (st : CountState) (c : Char) : CountState :=
  if st.escapeNext then { st with escapeNext := false }
  else if c == '\\' then { st with escapeNext := true }
  else if c == '"' then { st with inString := !st.inString }
  else if st.inString then st
  else if c == '{' then { st with braceCount := st.braceCount + 1 }
  else if c == '}' then { st with braceCount := st.braceCount - 1 }
  else if c == '[' then { st with bracketCount := st.bracketCount + 1 }
  else if c == ']' then { st with bracketCount := st.bracketCount - 1 }
  else st

def countOpen (cs : List Char) : CountState :=
  cs.foldl countStep ⟨0, 0, false, false⟩

/-- `json.replace(/,\s*$/, '')`: remove one trailing comma together with
the whitespace that follows it; otherwise leave the string unchanged. -/
def stripTrailingComma (cs : List Char) : List Char :=
  match cs.reverse.dropWhile jsWs with
  | ',' :: tl => tl.reverse
  | _ => cs

/-- `repairTruncatedJson(text)`: trim, cut back to the last complete index
when it is interior, close an unclosed string, strip a trailing comma, and
append the missing `]`s then `}`s. -/
def repairTruncatedJson (text : List Char) : List Char :=
  let json := jsTrim text
  let lastCompleteIndex := findLastCompleteIndex json
  let json :=
    if 0 < lastCompleteIndex ∧ lastCompleteIndex < (json.length : Int) - 1 then
      json.take (lastCompleteIndex + 1).toNat
    else json
  let st := countOpen json
  let json := if st.inString then json ++ ['"'] else json
  let json := stripTrailingComma json
  json ++ List.replicate st.bracketCount.toNat ']'
       ++ List.replicate st.braceCount.toNat '}'

/-- First index at which `needle` occurs as a contiguous run, if any. -/
def firstOccur (needle : List Char) : List Char → Option Nat
  | [] => if needle.isEmpty then some 0 else none
  | c :: rest =>
    if needle.isPrefixOf (c :: rest) then some 0
    else
      match firstOccur needle rest with
      | some i => some (i + 1)
      | none => none

def backtick : Char := Char.ofNat 96

def fenceTicks : List Char := [backtick, backtick, backtick]

/-- The code-fence extraction of `parseDesignJson`: the effect of matching
`/(three ticks)(?:json)?\s*([\s\S]*?)(three ticks)/` on text that starts
with a fence and taking the trimmed first capture group; if no closing
fence exists the match fails and the text is left unchanged. -/
def stripCodeFence (cs : List Char) : List Char :=
  let afterTicks := cs.drop 3
  let afterTag :=
    if ("json".data).isPrefixOf afterTicks then afterTicks.drop 4 else afterTicks
  let content := afterTag.dropWhile jsWs
  match firstOccur fenceTicks content with
  | some i => jsTrim (content.take i)
  | none => cs

def parseErrorMessage : String :=
  "Failed to parse response as JSON. The response may have been truncated. Try a simpler design request."

/-- The `parsed.name || parsed.children` validity check of
`parseDesignJson` (truthiness, not presence). -/
def hasNameOrChildren (v : JVal) : Bool :=
  jsTruthy (getProp v "name") || jsTruthy (getProp v "children")

/-- The `{`..`}` boundary slicing of `parseDesignJson`: slice from the
first `{` to the last `}` when both exist, from the first `{` to the end
when no `}` exists, and leave the text alone when there is no `{`. -/
def sliceBraces (jsonText : List Char) : List Char :=
  match jsonText.findIdx? (· == '{'),
        (jsonText.reverse.findIdx? (· == '}')).map (jsonText.length - 1 - ·) with
  | some i, some j => (jsonText.drop i).take (j + 1 - i)
  | some i, none => jsonText.drop i
  | none, _ => jsonText

/-- Steps 1-2 of `parseDesignJson`: trim, strip a markdown code fence when
present, then slice to the JSON object boundaries. -/
def pdjPreprocess (cs : List Char) : List Char :=
  sliceBraces
    (if fenceTicks.isPrefixOf (jsTrim cs) then stripCodeFence (jsTrim cs)
     else jsTrim cs)

/-- The second (repair) attempt of `parseDesignJson`: parse the repaired
text; reject a result lacking both a truthy `name` and a truthy
`children`; failures raise the single parse error. -/
def pdjRepairAttempt (jsonText : List Char) : Except String JVal :=
  match jsonParse (repairTruncatedJson jsonText) with
  | some parsed =>
    if hasNameOrChildren parsed then .ok parsed else .error parseErrorMessage
  | none => .error parseErrorMessage

/-- `parseDesignJson(text)`: preprocess, try a strict parse (returned when
it has a truthy `name` or `children`), else fall back to the repair
attempt. -/
def parseDesignJson (text : String) : Except String JVal :=
  match jsonParse (pdjPreprocess text.data) with
  | some parsed =>
    if hasNameOrChildren parsed then .ok parsed
    else pdjRepairAttempt (pdjPreprocess text.data)
  | none => pdjRepairAttempt (pdjPreprocess text.data)

/-! ### `JSON.stringify`, for stating the truncated-prefix properties -/

def hexDigitChar (n : Nat) : Char :=
  if n < 10 then Char.ofNat ('0'.toNat + n) else Char.ofNat ('a'.toNat + n - 10)

/-- JS number-to-string for the exact-decimal values arising here: an
integer prints as itself, and a terminating decimal prints with its
minimal digits (matching the shortest round-trip printing of the
corresponding double). -/
def jsNumToString (q : ℚ) : String :=
  if q.den = 1 then toString q.num
  else
    let sign := if q.num < 0 then "-" else ""
    let n := q.num.natAbs
    let d := q.den
    match (List.range 31).find? (fun k => 10 ^ k % d == 0) with
    | some k =>
      let scaled : Nat := n * (10 ^ k / d)
      let ip := scaled / 10 ^ k
      let fp := scaled % 10 ^ k
      let fpDigits := Nat.toDigits 10 fp
      sign ++ toString ip ++ "." ++
        String.mk (List.replicate (k - fpDigits.length) '0' ++ fpDigits)
    | none => sign ++ toString n ++ "/" ++ toString d

/-- `JSON.stringify` escaping for one character of a string. -/
def jsonEscapeChar (c : Char) : List Char :=
  if c == '"' then ['\\', '"']
  else if c == '\\' then ['\\', '\\']
  else if c == '\n' then ['\\', 'n']
  else if c == '\r' then ['\\', 'r']
  else if c == '\t' then ['\\', 't']
  else if c.toNat == 8 then ['\\', 'b']
  else if c.toNat == 12 then ['\\', 'f']
  else if c.toNat < 32 then
    ['\\', 'u', '0', '0', hexDigitChar (c.toNat / 16), hexDigitChar (c.toNat % 16)]
  else [c]

def jsonQuote (s : String) : String :=
  "\"" ++ String.mk (s.data.flatMap jsonEscapeChar) ++ "\""

/-- Fuel-indexed body of `JSON.stringify`; the fuel only serves structural
recursion and `sizeOf` always suffices. -/
def jsonStringifyF : Nat → JVal → String
  | 0, _ => ""
  | _, .jnull => "null"
  | _, .jbool b => if b then "true" else "false"
  | _, .jnum q => jsNumToString q
  | _, .jstr s => jsonQuote s
  | f + 1, .jarr es =>
    "[" ++ String.intercalate "," (es.map (jsonStringifyF f)) ++ "]"
  | f + 1, .jobj ms =>
    "\x7b" ++ String.intercalate ","
        (ms.map fun kv => jsonQuote kv.1 ++ ":" ++ jsonStringifyF f kv.2)
      ++ "\x7d"

/-- `JSON.stringify(v)` (no spacing argument): members and elements in
order, separated by commas, with standard string escaping.  The fuel of
`100000` exceeds the nesting depth of any value arising here (the engine
itself fails on nesting of that order). -/
def jsonStringify (v : JVal) : String := jsonStringifyF 100000 v

/-! ### `styleCache.ts`: the name-lookup caches

The caches are JS `Map`s, modelled as association lists in insertion
order (JS map iteration order); `has`/`get` find the stored binding of a
key (keys are unique in a `Map`). -/

/-- `toLowerCase()` on the ASCII names occurring here. -/
def jsToLower (s : String) : String := String.mk (s.data.map Char.toLower)

/-- JS `String.prototype.includes`. -/
def strIncludes (hay sub : List Char) : Bool := (firstOccur sub hay).isSome

def mapHas (cache : List (String × α)) (k : String) : Bool :=
  cache.any (·.1 == k)

def mapGet (cache : List (String × α)) (k : String) : Option α :=
  (cache.find? (·.1 == k)).map (·.2)

/-- `findTextStyle` and `findColorVariable` share this body verbatim in
the source: exact `Map` hit, then a case-insensitive pass, then a
substring pass testing containment in both directions; each pass returns
the first entry in insertion order. -/
def findByNameTiered (cache : List (String × α)) (name : String) : Option α :=
  if mapHas cache name then mapGet cache name
  else
    let nameLower := jsToLower name
    match cache.find? (fun kv => jsToLower kv.1 == nameLower) with
    | some kv => some kv.2
    | none =>
      match cache.find? (fun kv =>
          strIncludes (jsToLower kv.1).data nameLower.data ||
          strIncludes nameLower.data (jsToLower kv.1).data) with
      | some kv => some kv.2
      | none => none

/-- `findTextStyle(name)` over the text-style cache. -/
def findTextStyle (cache : List (String × α)) (name : String) : Option α :=
  findByNameTiered cache name

/-- `findColorVariable(name)` over the color-variable cache. -/
def findColorVariable (cache : List (String × α)) (name : String) : Option α :=
  findByNameTiered cache name

/-- `findSpacingVariable(name)`: exact `Map` hit, then a single pass
whose test is case-insensitive equality OR the key containing the query
(note: unlike the other two lookups, one combined pass and one
containment direction). -/
def findSpacingVariable (cache : List (String × α)) (name : String) : Option α :=
  if mapHas cache name then mapGet cache name
  else
    let nameLower := jsToLower name
    match cache.find? (fun kv =>
        jsToLower kv.1 == nameLower ||
        strIncludes (jsToLower kv.1).data nameLower.data) with
    | some kv => some kv.2
    | none => none

/-- Modelled from the spec's words on lookup order: exact string match,
then case-insensitive exact match, then case-insensitive substring match
in either direction; first match wins.  Written for comparison with the
source lookups above. -/
def specOrderedLookup (cache : List (String × α)) (name : String) : Option α :=
  match cache.find? (·.1 == name) with
  | some kv => some kv.2
  | none =>
    match cache.find? (fun kv => jsToLower kv.1 == jsToLower name) with
    | some kv => some kv.2
    | none =>
      match cache.find? (fun kv =>
          strIncludes (jsToLower kv.1).data (jsToLower name).data ||
          strIncludes (jsToLower name).data (jsToLower kv.1).data) with
      | some kv => some kv.2
      | none => none

/-! ### Host variables and alias chains (`designSystem.ts`,
`elements.ts`) -/

/-- A stored variable value: a color object (`r`/`g`/`b`, optional `a`),
a number, or an alias record `\x7b type: 'VARIABLE_ALIAS', id \x7d`. -/
inductive VarValue where
  | colorValue (r g b : ℚ) (a : Option ℚ)
  | floatValue (x : ℚ)
  | aliasValue (id : String)
deriving Repr, DecidableEq

/-- A host document variable: id, name, and `valuesByMode` with its keys
in insertion order (`Object.keys` order). -/
structure HostVariable where
  id : String
  name : String
  valuesByMode : List (String × VarValue)
deriving Repr, DecidableEq

/-- `variable.valuesByMode[Object.keys(variable.valuesByMode)[0]]`:
the first mode's value, `undefined` when there are no modes. -/
def firstModeValue (v : HostVariable) : Option VarValue :=
  v.valuesByMode.head?.map (·.2)

/-- `isVariableAlias(value)`: an object with `type === 'VARIABLE_ALIAS'`.
A color object has no `type` field and a number is not an object. -/
def isVariableAlias (v : Option VarValue) : Bool :=
  match v with
  | some (.aliasValue _) => true
  | _ => false

/-- The alias-following loop shared by `resolveColorValue`,
`resolveNumberValue` (`designSystem.ts`) and `resolveSpacingVariable`
(`elements.ts`): while the value is an alias and fewer than 10 hops were
taken, look the alias id up (a missing variable breaks the loop) and move
to that variable's first-mode value. -/
def aliasChase (byId : List (String × HostVariable)) :
    Nat → Option VarValue → Option VarValue
  | 0, value => value
  | fuel + 1, value =>
    match value with
    | some (.aliasValue aliasId) =>
      match mapGet byId aliasId with
      | none => some (.aliasValue aliasId)
      | some aliasedVar => aliasChase byId fuel (firstModeValue aliasedVar)
    | _ => value

/-- `resolveColorValue(variable)`: follow the alias chain (at most 10
hops), then return the value if it is a color object (`'r' in value`);
an alias still left after the bound has no `r` and yields `null`. -/
def resolveColorValue (byId : List (String × HostVariable))
    (hostVar : HostVariable) : Option (ℚ × ℚ × ℚ) :=
  match aliasChase byId 10 (firstModeValue hostVar) with
  | some (.colorValue r g b _) => some (r, g, b)
  | _ => none

/-- `resolveNumberValue(variable)`: follow the alias chain (at most 10
hops), then return the value if it is a number. -/
def resolveNumberValue (byId : List (String × HostVariable))
    (hostVar : HostVariable) : Option ℚ :=
  match aliasChase byId 10 (firstModeValue hostVar) with
  | some (.floatValue x) => some x
  | _ => none

/-! ### `paints.ts`: fill/stroke/effect conversion with variable binding -/

/-- A color object from the design JSON: `r`/`g`/`b`, optional `a`. -/
structure ColorArg where
  r : ℚ
  g : ℚ
  b : ℚ
  a : Option ℚ := none
deriving Repr, DecidableEq

structure GradientStop where
  position : ℚ
  color : ColorArg
deriving Repr, DecidableEq

/-- A `Fill` from the design JSON (`types.ts`), with the runtime-optional
fields the converter actually tests. -/
structure Fill where
  type : Option String := none
  color : Option ColorArg := none
  colorVariable : Option String := none
  opacity : Option ℚ := none
  gradientStops : Option (List GradientStop) := none
  visible : Option Bool := none
deriving Repr, DecidableEq

/-- A `Stroke` from the design JSON (`types.ts`). -/
structure Stroke where
  type : Option String := none
  color : Option ColorArg := none
  colorVariable : Option String := none
  opacity : Option ℚ := none
deriving Repr, DecidableEq

/-- A clean `r`/`g`/`b` triple (no alpha), the result of `toRGB`. -/
structure RGBv where
  r : ℚ
  g : ℚ
  b : ℚ
deriving Repr, DecidableEq

def toRGB (c : ColorArg) : RGBv := ⟨c.r, c.g, c.b⟩

/-- One output gradient stop: position plus `r`/`g`/`b`/`a` with the
alpha defaulted to 1, as the converter maps it. -/
structure GradientStopOut where
  position : ℚ
  r : ℚ
  g : ℚ
  b : ℚ
  a : ℚ
deriving Repr, DecidableEq

/-- A host paint produced by the converters.  The constant identity
`gradientTransform` the source attaches is not carried. -/
inductive Paint where
  | solid (color : RGBv) (opacity : ℚ)
  | gradientLinear (stops : List GradientStopOut)
deriving Repr, DecidableEq

/-- `getOpacity(fill)`: explicit opacity, else the color's alpha when
present, else 1. -/
def getOpacity (fill : Fill) : ℚ :=
  match fill.opacity with
  | some o => o
  | none =>
    match fill.color with
    | some c => match c.a with | some a => a | none => 1
    | none => 1

/-- `getStrokeOpacity(stroke)`: same rule as `getOpacity`. -/
def getStrokeOpacity (stroke : Stroke) : ℚ :=
  match stroke.opacity with
  | some o => o
  | none =>
    match stroke.color with
    | some c => match c.a with | some a => a | none => 1
    | none => 1

/-- Result of `convertFillWithVariable`: either the successful bind path
(the paint was appended to `node.fills` and bound to the variable, and
the function returned `null`), or the returned `Paint | null`. -/
inductive FillResult where
  | boundPaint (v : HostVariable) (opacity : ℚ)
  | ret (p : Option Paint)
deriving Repr, DecidableEq

/-- The raw-value tail of `convertFillWithVariable`: literal color first,
then a linear gradient, else `null`. -/
def fillFallback (fill : Fill) : FillResult :=
  match fill.color with
  | some c => .ret (some (.solid (toRGB c) (getOpacity fill)))
  | none =>
    if fill.type == some "GRADIENT_LINEAR" && fill.gradientStops.isSome then
      .ret (some (.gradientLinear ((fill.gradientStops.getD []).map fun stop =>
        ⟨stop.position, stop.color.r, stop.color.g, stop.color.b,
         stop.color.a.getD 1⟩)))
    else .ret none

/-- `convertFillWithVariable(node, fill)`.  The host node is abstracted
by `nodeHasFills` (`'fills' in node`) and `canBind` (`setBoundVariable`
succeeds; `false` models the exception the source catches).  A found
variable whose first-mode value is not a direct color object — an alias,
a number, or no mode at all — falls through to the raw-value tail, as
does an unresolved name. -/
def convertFillWithVariable (colorCache : List (String × HostVariable))
    (nodeHasFills canBind : Bool) (fill : Fill) : FillResult :=
  if fill.visible == some false then .ret none
  else if strTruthy fill.colorVariable then
    match findColorVariable colorCache (fill.colorVariable.getD "") with
    | some v =>
      if nodeHasFills && canBind then .boundPaint v (getOpacity fill)
      else
        match firstModeValue v with
        | some (.colorValue r g b _) =>
          .ret (some (.solid ⟨r, g, b⟩ (getOpacity fill)))
        | _ => fillFallback fill
    | none => fillFallback fill
  else fillFallback fill

/-- The raw-value tail of `convertStrokeWithVariable`. -/
def strokeFallback (stroke : Stroke) : Option Paint :=
  match stroke.color with
  | some c => some (.solid (toRGB c) (getStrokeOpacity stroke))
  | none => none

/-- `convertStrokeWithVariable(node, stroke)`: no bind path; a found
variable is used only when its first-mode value is a direct color object,
otherwise the literal color is the fallback. -/
def convertStrokeWithVariable (colorCache : List (String × HostVariable))
    (stroke : Stroke) : Option Paint :=
  if strTruthy stroke.colorVariable then
    match findColorVariable colorCache (stroke.colorVariable.getD "") with
    | some v =>
      match firstModeValue v with
      | some (.colorValue r g b _) =>
        some (.solid ⟨r, g, b⟩ (getStrokeOpacity stroke))
      | _ => strokeFallback stroke
    | none => strokeFallback stroke
  else strokeFallback stroke

/-- An `Effect` from the design JSON. -/
structure EffectArg where
  type : Option String := none
  color : Option ColorArg := none
  offset : Option (ℚ × ℚ) := none
  radius : Option ℚ := none
  spread : Option ℚ := none
  visible : Option Bool := none
deriving Repr, DecidableEq

/-- A host effect produced by `convertEffect` (`visible: true`,
`blendMode: 'NORMAL'` constants are implicit). -/
inductive EffectOut where
  | dropShadow (color : ColorArg) (offset : ℚ × ℚ) (radius spread : ℚ)
  | innerShadow (color : ColorArg) (offset : ℚ × ℚ) (radius spread : ℚ)
  | layerBlur (radius : ℚ)
  | backgroundBlur (radius : ℚ)
deriving Repr, DecidableEq

/-- `convertEffect(effect)`: invisible entries drop; shadows need a
color; defaults per effect kind as in the source. -/
def convertEffect (effect : EffectArg) : Option EffectOut :=
  if effect.visible == some false then none
  else if effect.type == some "DROP_SHADOW" && effect.color.isSome then
    some (.dropShadow (effect.color.getD ⟨0, 0, 0, none⟩)
      (effect.offset.getD (0, 4)) (effect.radius.getD 8) (effect.spread.getD 0))
  else if effect.type == some "INNER_SHADOW" && effect.color.isSome then
    some (.innerShadow (effect.color.getD ⟨0, 0, 0, none⟩)
      (effect.offset.getD (0, 2)) (effect.radius.getD 4) (effect.spread.getD 0))
  else if effect.type == some "LAYER_BLUR" then
    some (.layerBlur (effect.radius.getD 4))
  else if effect.type == some "BACKGROUND_BLUR" then
    some (.backgroundBlur (effect.radius.getD 10))
  else none

/-! ### `fonts.ts` / `fontLoader.ts` -/

/-- `FONT_WEIGHT_TO_STYLE` (`fonts.ts`). -/
def fontWeightToStyle : List (ℚ × String) :=
  [(100, "Thin"), (200, "ExtraLight"), (300, "Light"), (400, "Regular"),
   (500, "Medium"), (600, "SemiBold"), (700, "Bold"), (800, "ExtraBold"),
   (900, "Black")]

/-- `getFontStyle(weight)`: the mapped style name, or `'Regular'`. -/
def getFontStyle (weight : ℚ) : String :=
  match fontWeightToStyle.find? (·.1 == weight) with
  | some kv => some kv.2 |>.getD "Regular"
  | none => "Regular"

/-- A local text style: id, name, and `fontName` (family, style). -/
structure TextStyleH where
  id : String
  name : String
  fontName : String × String
deriving Repr, DecidableEq

/-- The renderer's session caches (`initializeCaches`), plus the host
document's variables by id for `getVariableById`. -/
structure StyleCaches where
  textStyleCache : List (String × TextStyleH)
  colorVariableCache : List (String × HostVariable)
  spacingVariableCache : List (String × HostVariable)
  byId : List (String × HostVariable)
deriving Repr

/-- The host environment a render runs against: the caches, which fonts
`loadFontAsync` can load, the components `importComponentByKeyAsync`
resolves (key to name), which instance properties `setProperties`
accepts, whether `setBoundVariable` succeeds, and the viewport center. -/
structure RenderEnv where
  caches : StyleCaches
  availableFonts : List (String × String)
  components : List (String × String)
  settableProps : List String
  canBind : Bool
  viewportCenter : ℚ × ℚ
deriving Repr

/-- `loadFont(family, style)` (`fontLoader.ts`): requested font, else
`Inter` at the same style, else `Inter Regular`.  The `loadedFonts`
memo set only caches successes and is semantically transparent. -/
def loadFont (env : RenderEnv) (family style : String) : String × String :=
  if env.availableFonts.any (· == (family, style)) then (family, style)
  else if !(family == "Inter") && env.availableFonts.any (· == ("Inter", style)) then
    ("Inter", style)
  else ("Inter", "Regular")

/-! ### The design document tree (`types.ts` at runtime) -/

/-- `lineHeight?: number | \x7b value, unit \x7d`. -/
inductive LineHeightArg where
  | num (x : ℚ)
  | obj (value : ℚ) (unit : String)
deriving Repr, DecidableEq

/-- The runtime shape shared by the root `FrameNode` document and every
`ElementNode` of the design JSON: every field optional, accessed by
presence/truthiness checks as the renderer does. -/
structure DesignProps where
  type : Option String := none
  name : Option String := none
  width : Option ℚ := none
  height : Option ℚ := none
  x : Option ℚ := none
  y : Option ℚ := none
  layoutMode : Option String := none
  primaryAxisSizingMode : Option String := none
  counterAxisSizingMode : Option String := none
  primaryAxisAlignItems : Option String := none
  counterAxisAlignItems : Option String := none
  layoutAlign : Option String := none
  layoutGrow : Option ℚ := none
  layoutPositioning : Option String := none
  padding : Option (ℚ × ℚ × ℚ × ℚ) := none
  itemSpacing : Option ℚ := none
  paddingVariable : Option String := none
  itemSpacingVariable : Option String := none
  fills : Option (List Fill) := none
  strokes : Option (List Stroke) := none
  strokeWeight : Option ℚ := none
  cornerRadius : Option ℚ := none
  opacity : Option ℚ := none
  effects : Option (List EffectArg) := none
  clipsContent : Option Bool := none
  characters : Option String := none
  fontSize : Option ℚ := none
  fontWeight : Option ℚ := none
  fontFamily : Option String := none
  textStyleName : Option String := none
  textAlignHorizontal : Option String := none
  textAlignVertical : Option String := none
  lineHeight : Option LineHeightArg := none
  letterSpacing : Option ℚ := none
  textCase : Option String := none
  textDecoration : Option String := none
  componentKey : Option String := none
  componentProperties : Option (List (String × String)) := none
deriving Repr, DecidableEq

/-- A design-document node: its properties and its (possibly empty)
child list. -/
inductive Element where
  | node (props : DesignProps) (children : List Element)
deriving Repr

def Element.props : Element → DesignProps
  | .node p _ => p

def Element.childList : Element → List Element
  | .node _ c => c

/-- JS `a || dflt` for an optional string. -/
def jsOr (s : Option String) (dflt : String) : String :=
  if strTruthy s then s.getD "" else dflt

/-- JS numeric truthiness of an optional number. -/
def numTruthy (q : Option ℚ) : Bool :=
  match q with
  | some q => !(q.num == 0)
  | none => false

/-- Exact rational subtraction via `mkRat`, so the kernel evaluates it. -/
def ratSub (a b : ℚ) : ℚ :=
  mkRat (a.num * (b.den : Int) - b.num * (a.den : Int)) (a.den * b.den)

/-- Exact rational halving via `mkRat`. -/
def ratHalf (a : ℚ) : ℚ := mkRat a.num (a.den * 2)

/-! ### Host node states produced by the renderer

Each state starts from the host's `create*` defaults; `none` on an
optional field means the render pass never assigned it and the host
default (whatever it is) is still in place. -/

/-- A host `FrameNode` under construction.  `createFrame()` starts at
100x100.  `boundFills` records paints pushed and bound on the successful
bind path of `convertFillWithVariable`; a later whole-array assignment
`frame.fills = paints` discards them, as in the host. -/
structure FrameState where
  name : String := ""
  width : ℚ := 100
  height : ℚ := 100
  layoutMode : Option String := none
  primaryAxisAlignItems : Option String := none
  counterAxisAlignItems : Option String := none
  itemSpacing : Option ℚ := none
  paddingTop : Option ℚ := none
  paddingRight : Option ℚ := none
  paddingBottom : Option ℚ := none
  paddingLeft : Option ℚ := none
  primaryAxisSizingMode : Option String := none
  counterAxisSizingMode : Option String := none
  fills : Option (List Paint) := none
  boundFills : List (HostVariable × ℚ) := []
  strokes : Option (List Paint) := none
  strokeWeight : Option ℚ := none
  cornerRadius : Option ℚ := none
  effects : Option (List EffectOut) := none
  clipsContent : Option Bool := none
  opacity : Option ℚ := none
  layoutPositioning : Option String := none
  x : Option ℚ := none
  y : Option ℚ := none
  layoutAlign : Option String := none
  layoutGrow : Option ℚ := none
deriving Repr, DecidableEq

/-- A host `TextNode` under construction.  The initial extent is
host-determined (abstracted as 0); only fields the pass assigns are
tracked. -/
structure TextState where
  name : String := ""
  width : ℚ := 0
  height : ℚ := 0
  characters : String := ""
  fontName : Option (String × String) := none
  textStyleId : Option String := none
  fontSize : Option ℚ := none
  textAlignHorizontal : Option String := none
  textAlignVertical : Option String := none
  lineHeight : Option (ℚ × String) := none
  letterSpacing : Option (ℚ × String) := none
  textDecoration : Option String := none
  textCase : Option String := none
  textAutoResize : Option String := none
  fills : Option (List Paint) := none
  boundFills : List (HostVariable × ℚ) := []
  layoutAlign : Option String := none
  layoutGrow : Option ℚ := none
  opacity : Option ℚ := none
deriving Repr, DecidableEq

/-- A host rectangle/ellipse/line under construction (`create*` shapes
start at 100x100; a line's height is 0). -/
structure ShapeState where
  name : String := ""
  width : ℚ := 100
  height : ℚ := 100
  fills : Option (List Paint) := none
  boundFills : List (HostVariable × ℚ) := []
  strokes : Option (List Paint) := none
  strokeWeight : Option ℚ := none
  cornerRadius : Option ℚ := none
  effects : Option (List EffectOut) := none
  opacity : Option ℚ := none
  layoutAlign : Option String := none
  layoutGrow : Option ℚ := none
deriving Repr, DecidableEq

/-- A host `InstanceNode` created from an imported component. -/
structure InstanceState where
  name : String := ""
  componentName : String := ""
  width : ℚ := 100
  height : ℚ := 100
  appliedProperties : List (String × String) := []
  layoutAlign : Option String := none
  layoutGrow : Option ℚ := none
deriving Repr, DecidableEq

/-- A rendered host scene node. -/
inductive RNode where
  | frameN (st : FrameState) (children : List RNode)
  | textN (st : TextState)
  | rectN (st : ShapeState)
  | ellipseN (st : ShapeState)
  | lineN (st : ShapeState)
  | instanceN (st : InstanceState)
deriving Repr

/-! ### `elements.ts`: property application and element rendering -/

/-- `resolveSpacingVariable(variableName)` (`elements.ts`): look the name
up in the spacing cache, follow its alias chain (at most 10 hops via
`getVariableById`), and return the value if it ends at a number. -/
def resolveSpacingVariable (caches : StyleCaches) (variableName : String) : Option ℚ :=
  match findSpacingVariable caches.spacingVariableCache variableName with
  | none => none
  | some v =>
    match aliasChase caches.byId 10 (firstModeValue v) with
    | some (.floatValue x) => some x
    | _ => none

/-- Size block of `applyFrameProperties`: resize only when both
dimensions are present. -/
def afpSize (st : FrameState) (props : DesignProps) : FrameState :=
  match props.width, props.height with
  | some w, some h => { st with width := w, height := h }
  | _, _ => st

def validCounterAxis : List String := ["MIN", "MAX", "CENTER", "BASELINE"]

/-- Auto-layout: `frame.layoutMode = props.layoutMode`. -/
def alSetMode (st : FrameState) (props : DesignProps) : FrameState :=
  { st with layoutMode := props.layoutMode }

/-- Auto-layout: primary-axis alignment, assigned unvalidated when
truthy. -/
def alPrimaryAlign (st : FrameState) (props : DesignProps) : FrameState :=
  if strTruthy props.primaryAxisAlignItems then
    { st with primaryAxisAlignItems := props.primaryAxisAlignItems }
  else st

/-- Auto-layout: counter-axis alignment, coerced to `CENTER` unless it is
one of MIN/MAX/CENTER/BASELINE. -/
def alCounterAlign (st : FrameState) (props : DesignProps) : FrameState :=
  if strTruthy props.counterAxisAlignItems then
    let cv := props.counterAxisAlignItems.getD ""
    let cv2 := if validCounterAxis.contains cv then cv else "CENTER"
    { st with counterAxisAlignItems := some cv2 }
  else st

/-- Auto-layout: item spacing — a truthy named variable short-circuits
(nothing is assigned when it fails to resolve); the literal applies only
when no variable name is present. -/
def alItemSpacing (caches : StyleCaches) (st : FrameState) (props : DesignProps) :
    FrameState :=
  if strTruthy props.itemSpacingVariable then
    match resolveSpacingVariable caches (props.itemSpacingVariable.getD "") with
    | some v => { st with itemSpacing := some v }
    | none => st
  else if props.itemSpacing.isSome then { st with itemSpacing := props.itemSpacing }
  else st

/-- Auto-layout: padding, with the same variable-first short-circuit (a
resolved variable applies uniformly to all four sides). -/
def alPadding (caches : StyleCaches) (st : FrameState) (props : DesignProps) :
    FrameState :=
  if strTruthy props.paddingVariable then
    match resolveSpacingVariable caches (props.paddingVariable.getD "") with
    | some v =>
      { st with paddingTop := some v, paddingRight := some v,
                paddingBottom := some v, paddingLeft := some v }
    | none => st
  else
    match props.padding with
    | some (t, r, b, l) =>
      { st with paddingTop := some t, paddingRight := some r,
                paddingBottom := some b, paddingLeft := some l }
    | none => st

/-- Auto-layout: primary-axis sizing — HUG and FILL map to `AUTO`, FIXED
to `FIXED`; an absent or falsy declaration defaults to `AUTO`; a present
unrecognized value assigns nothing. -/
def alPrimarySizing (st : FrameState) (props : DesignProps) : FrameState :=
  if strTruthy props.primaryAxisSizingMode then
    let m := props.primaryAxisSizingMode.getD ""
    if m == "HUG" then { st with primaryAxisSizingMode := some "AUTO" }
    else if m == "FIXED" then { st with primaryAxisSizingMode := some "FIXED" }
    else if m == "FILL" then { st with primaryAxisSizingMode := some "AUTO" }
    else st
  else { st with primaryAxisSizingMode := some "AUTO" }

/-- Auto-layout: counter-axis sizing, same mapping. -/
def alCounterSizing (st : FrameState) (props : DesignProps) : FrameState :=
  if strTruthy props.counterAxisSizingMode then
    let m := props.counterAxisSizingMode.getD ""
    if m == "HUG" then { st with counterAxisSizingMode := some "AUTO" }
    else if m == "FIXED" then { st with counterAxisSizingMode := some "FIXED" }
    else if m == "FILL" then { st with counterAxisSizingMode := some "AUTO" }
    else st
  else { st with counterAxisSizingMode := some "AUTO" }

/-- Auto-layout block of `applyFrameProperties` (`elements.ts` lines
109-179): runs only for a truthy non-`NONE` `layoutMode`; the sub-steps
in source order. -/
def afpAutoLayout (caches : StyleCaches) (st : FrameState) (props : DesignProps) :
    FrameState :=
  if strTruthy props.layoutMode && !(props.layoutMode == some "NONE") then
    alCounterSizing
      (alPrimarySizing
        (alPadding caches
          (alItemSpacing caches
            (alCounterAlign (alPrimaryAlign (alSetMode st props) props) props)
            props)
          props)
        props)
      props
  else st

/-- The fills loop shared by the renderers: returned paints collect in
order; bound paints (which returned `null`) collect separately. -/
def convertFillsList (colorCache : List (String × HostVariable)) (canBind : Bool)
    (fills : List Fill) : List Paint × List (HostVariable × ℚ) :=
  fills.foldl
    (fun acc fill =>
      match convertFillWithVariable colorCache true canBind fill with
      | .boundPaint v o => (acc.1, acc.2 ++ [(v, o)])
      | .ret (some p) => (acc.1 ++ [p], acc.2)
      | .ret none => acc)
    ([], [])

/-- Fills block of `applyFrameProperties`: `frame.fills = paints` only
when some paints were returned — that whole-array write also discards
any paints the bind path had pushed. -/
def afpFills (env : RenderEnv) (st : FrameState) (props : DesignProps) : FrameState :=
  match props.fills with
  | some fillsList =>
    if fillsList.length > 0 then
      let pb := convertFillsList env.caches.colorVariableCache env.canBind fillsList
      let st := { st with boundFills := st.boundFills ++ pb.2 }
      if pb.1.length > 0 then { st with fills := some pb.1, boundFills := [] }
      else st
    else st
  | none => st

/-- Strokes block of `applyFrameProperties`. -/
def afpStrokes (env : RenderEnv) (st : FrameState) (props : DesignProps) : FrameState :=
  match props.strokes with
  | some strokesList =>
    if strokesList.length > 0 then
      let paints :=
        strokesList.filterMap (convertStrokeWithVariable env.caches.colorVariableCache)
      if paints.length > 0 then { st with strokes := some paints } else st
    else st
  | none => st

def afpStrokeWeight (st : FrameState) (props : DesignProps) : FrameState :=
  if props.strokeWeight.isSome then { st with strokeWeight := props.strokeWeight } else st

def afpCorner (st : FrameState) (props : DesignProps) : FrameState :=
  if props.cornerRadius.isSome then { st with cornerRadius := props.cornerRadius } else st

def afpEffects (st : FrameState) (props : DesignProps) : FrameState :=
  match props.effects with
  | some effs =>
    if effs.length > 0 then { st with effects := some (effs.filterMap convertEffect) }
    else st
  | none => st

def afpClips (st : FrameState) (props : DesignProps) : FrameState :=
  if props.clipsContent.isSome then { st with clipsContent := props.clipsContent } else st

def afpOpacity (st : FrameState) (props : DesignProps) : FrameState :=
  if props.opacity.isSome then { st with opacity := props.opacity } else st

/-- Absolute positioning: `layoutPositioning === 'ABSOLUTE'` sets the
flag and copies declared `x`/`y`. -/
def afpAbsPos (st : FrameState) (props : DesignProps) : FrameState :=
  if props.layoutPositioning == some "ABSOLUTE" then
    let st := { st with layoutPositioning := some "ABSOLUTE" }
    let st := if props.x.isSome then { st with x := props.x } else st
    if props.y.isSome then { st with y := props.y } else st
  else st

def afpAlign (st : FrameState) (props : DesignProps) : FrameState :=
  if strTruthy props.layoutAlign then
    if props.layoutAlign == some "STRETCH" then { st with layoutAlign := some "STRETCH" }
    else st
  else st

def afpGrow (st : FrameState) (props : DesignProps) : FrameState :=
  if props.layoutGrow.isSome then { st with layoutGrow := props.layoutGrow } else st

/-- Tail of `applyFrameProperties`: stroke weight, corner radius,
effects, clipping, opacity, absolute positioning, stretch alignment,
grow — in source order. -/
def afpRest (st : FrameState) (props : DesignProps) : FrameState :=
  afpGrow
    (afpAlign
      (afpAbsPos
        (afpOpacity (afpClips (afpEffects (afpCorner (afpStrokeWeight st props) props) props) props) props)
        props)
      props)
    props

/-- `applyFrameProperties(frame, props)`: the blocks in source order. -/
def applyFrameProperties (env : RenderEnv) (st : FrameState) (props : DesignProps) :
    FrameState :=
  afpRest
    (afpStrokes env
      (afpFills env (afpAutoLayout env.caches (afpSize st props) props) props) props)
    props

/-- `applyManualTextProperties(text, element)`: direct font properties
with the safe-font fallback chain, then content and text attributes. -/
def applyManualTextProperties (env : RenderEnv) (st : TextState) (props : DesignProps) :
    TextState :=
  let fontFamily := jsOr props.fontFamily "Inter"
  let fontWeight := if numTruthy props.fontWeight then props.fontWeight.getD 0 else 400
  let loadedFont := loadFont env fontFamily (getFontStyle fontWeight)
  let st := { st with fontName := some loadedFont, characters := jsOr props.characters "" }
  let st := if numTruthy props.fontSize then { st with fontSize := props.fontSize } else st
  let st :=
    if strTruthy props.textAlignHorizontal then
      { st with textAlignHorizontal := props.textAlignHorizontal }
    else st
  let st :=
    if strTruthy props.textAlignVertical then
      { st with textAlignVertical := props.textAlignVertical }
    else st
  let st :=
    match props.lineHeight with
    | some (.num x) => { st with lineHeight := some (x, "PIXELS") }
    | some (.obj v u) => { st with lineHeight := some (v, u) }
    | none => st
  let st :=
    match props.letterSpacing with
    | some x => { st with letterSpacing := some (x, "PIXELS") }
    | none => st
  let st :=
    if strTruthy props.textDecoration then { st with textDecoration := props.textDecoration }
    else st
  if strTruthy props.textCase then { st with textCase := props.textCase } else st

/-- The text-node fills block (same loop as `afpFills`, on a text
state). -/
def textFills (env : RenderEnv) (st : TextState) (props : DesignProps) : TextState :=
  match props.fills with
  | some fillsList =>
    if fillsList.length > 0 then
      let pb := convertFillsList env.caches.colorVariableCache env.canBind fillsList
      let st := { st with boundFills := st.boundFills ++ pb.2 }
      if pb.1.length > 0 then { st with fills := some pb.1, boundFills := [] }
      else st
    else st
  | none => st

/-- `renderText(element)`: text style by name when it resolves (loading
its font and applying the style id), else manual properties; then fills,
width constraint, stretch alignment, grow, opacity. -/
def renderTextState (env : RenderEnv) (props : DesignProps) : TextState :=
  let st : TextState := { name := jsOr props.name "Text" }
  let st :=
    if strTruthy props.textStyleName then
      match findTextStyle env.caches.textStyleCache (props.textStyleName.getD "") with
      | some style =>
        { st with characters := jsOr props.characters "", textStyleId := some style.id }
      | none => applyManualTextProperties env st props
    else applyManualTextProperties env st props
  let st := textFills env st props
  let st :=
    match props.width with
    | some w => { st with width := w, textAutoResize := some "HEIGHT" }
    | none => st
  let st :=
    if strTruthy props.layoutAlign then
      if props.layoutAlign == some "STRETCH" then
        { st with layoutAlign := some "STRETCH", textAutoResize := some "HEIGHT" }
      else st
    else st
  let st := if props.layoutGrow.isSome then { st with layoutGrow := props.layoutGrow } else st
  if props.opacity.isSome then { st with opacity := props.opacity } else st

/-- The shape-node fills block (same loop, on a shape state). -/
def shapeFills (env : RenderEnv) (st : ShapeState) (props : DesignProps) : ShapeState :=
  match props.fills with
  | some fillsList =>
    if fillsList.length > 0 then
      let pb := convertFillsList env.caches.colorVariableCache env.canBind fillsList
      let st := { st with boundFills := st.boundFills ++ pb.2 }
      if pb.1.length > 0 then { st with fills := some pb.1, boundFills := [] }
      else st
    else st
  | none => st

/-- The shape-node strokes block: stroke weight is applied only inside
the nonempty-strokes branch, as in `renderRectangle`/`renderEllipse`/
`renderLine`. -/
def shapeStrokes (env : RenderEnv) (st : ShapeState) (props : DesignProps) : ShapeState :=
  match props.strokes with
  | some strokesList =>
    if strokesList.length > 0 then
      let paints :=
        strokesList.filterMap (convertStrokeWithVariable env.caches.colorVariableCache)
      if paints.length > 0 then
        let st := { st with strokes := some paints }
        if props.strokeWeight.isSome then { st with strokeWeight := props.strokeWeight }
        else st
      else st
    else st
  | none => st

/-- `renderRectangle(element)`. -/
def renderRectangleState (env : RenderEnv) (props : DesignProps) : ShapeState :=
  let st : ShapeState := { name := jsOr props.name "Rectangle" }
  let st :=
    match props.width, props.height with
    | some w, some h => { st with width := w, height := h }
    | _, _ => st
  let st := shapeFills env st props
  let st := shapeStrokes env st props
  let st :=
    if props.cornerRadius.isSome then { st with cornerRadius := props.cornerRadius } else st
  let st :=
    match props.effects with
    | some effs =>
      if effs.length > 0 then { st with effects := some (effs.filterMap convertEffect) }
      else st
    | none => st
  let st := if props.opacity.isSome then { st with opacity := props.opacity } else st
  let st :=
    if strTruthy props.layoutAlign then
      if props.layoutAlign == some "STRETCH" then { st with layoutAlign := some "STRETCH" }
      else st
    else st
  if props.layoutGrow.isSome then { st with layoutGrow := props.layoutGrow } else st

/-- `renderEllipse(element)`: like the rectangle but with no corner
radius and no layout-participation properties. -/
def renderEllipseState (env : RenderEnv) (props : DesignProps) : ShapeState :=
  let st : ShapeState := { name := jsOr props.name "Ellipse" }
  let st :=
    match props.width, props.height with
    | some w, some h => { st with width := w, height := h }
    | _, _ => st
  let st := shapeFills env st props
  let st := shapeStrokes env st props
  let st :=
    match props.effects with
    | some effs =>
      if effs.length > 0 then { st with effects := some (effs.filterMap convertEffect) }
      else st
    | none => st
  if props.opacity.isSome then { st with opacity := props.opacity } else st

/-- `renderLine(element)`: `resize(width, 0)`; a default black stroke
(host paint with implicit opacity 1) when none are given. -/
def renderLineState (env : RenderEnv) (props : DesignProps) : ShapeState :=
  let st : ShapeState := { name := jsOr props.name "Line", height := 0 }
  let st :=
    match props.width with
    | some w => { st with width := w, height := 0 }
    | none => st
  let st :=
    match props.strokes with
    | some strokesList =>
      if strokesList.length > 0 then shapeStrokes env st props
      else { st with strokes := some [.solid ⟨0, 0, 0⟩ 1] }
    | none => { st with strokes := some [.solid ⟨0, 0, 0⟩ 1] }
  if props.opacity.isSome then { st with opacity := props.opacity } else st

/-- `renderInstance(element)` when the component key resolves:
`instance.name = element.name || component.name`; size when both given;
`setProperties` per key with unknown keys skipped (the per-key catch);
stretch and grow. -/
def renderInstanceState (env : RenderEnv) (props : DesignProps) (compName : String) :
    InstanceState :=
  let st : InstanceState := { name := jsOr props.name compName, componentName := compName }
  let st :=
    match props.width, props.height with
    | some w, some h => { st with width := w, height := h }
    | _, _ => st
  let applied :=
    (props.componentProperties.getD []).filter (fun kv => env.settableProps.contains kv.1)
  let st := { st with appliedProperties := applied }
  let st :=
    if props.layoutAlign == some "STRETCH" then { st with layoutAlign := some "STRETCH" }
    else st
  if props.layoutGrow.isSome then { st with layoutGrow := props.layoutGrow } else st

mutual

/-- `renderElement(element)`: dispatch on the `type` string; `FRAME`,
an unresolvable `INSTANCE` (no key, or import failure) and any unknown
type render as a frame — `createFrame`, name, `applyFrameProperties`,
then the children (the body of `renderFrame`, inlined at its three call
sites). -/
def renderElement (env : RenderEnv) : Element → RNode
  | .node props children =>
    if props.type == some "TEXT" then .textN (renderTextState env props)
    else if props.type == some "RECTANGLE" then .rectN (renderRectangleState env props)
    else if props.type == some "ELLIPSE" then .ellipseN (renderEllipseState env props)
    else if props.type == some "LINE" then .lineN (renderLineState env props)
    else if props.type == some "INSTANCE" then
      if strTruthy props.componentKey then
        match mapGet env.components (props.componentKey.getD "") with
        | some compName => .instanceN (renderInstanceState env props compName)
        | none =>
          .frameN
            (applyFrameProperties env { name := jsOr props.name "Frame" } props)
            (renderChildren env children)
      else
        .frameN
          (applyFrameProperties env { name := jsOr props.name "Frame" } props)
          (renderChildren env children)
    else
      .frameN
        (applyFrameProperties env { name := jsOr props.name "Frame" } props)
        (renderChildren env children)

/-- The `for (const child of element.children)` loop: children render in
order and every rendered node is appended (`renderElement` never yields
`null`). -/
def renderChildren (env : RenderEnv) : List Element → List RNode
  | [] => []
  | e :: es => renderElement env e :: renderChildren env es

end

/-- `renderDesign(design, viewport, designSystem)` (`renderer/index.ts`):
create the root frame, size it to the viewport and center it; then — the
in-place mutation of the input — force the document's `layoutMode` to
`VERTICAL` with `MIN`/`CENTER` alignment defaults when it was absent or
`NONE`; apply the frame properties; force fixed sizing on both axes and
re-resize to the viewport; render the children.  Returns the document as
the render pass leaves it, alongside the root node. -/
def renderDesign (env : RenderEnv) (design : Element) (viewport : ℚ × ℚ) :
    Element × RNode :=
  match design with
  | .node props children =>
    let st0 : FrameState :=
      { name := jsOr props.name "Generated Screen",
        width := viewport.1, height := viewport.2,
        x := some (ratSub env.viewportCenter.1 (ratHalf viewport.1)),
        y := some (ratSub env.viewportCenter.2 (ratHalf viewport.2)) }
    let mutated : DesignProps :=
      if !(strTruthy props.layoutMode) || props.layoutMode == some "NONE" then
        { props with layoutMode := some "VERTICAL",
                     primaryAxisAlignItems := some (jsOr props.primaryAxisAlignItems "MIN"),
                     counterAxisAlignItems := some (jsOr props.counterAxisAlignItems "CENTER") }
      else props
    let st1 := applyFrameProperties env st0 mutated
    let st2 :=
      { st1 with primaryAxisSizingMode := some "FIXED",
                 counterAxisSizingMode := some "FIXED",
                 width := viewport.1, height := viewport.2 }
    (.node mutated children, .frameN st2 (renderChildren env children))

/-! ### Sample inputs for the parser/repair scenarios -/

/-- The truncated-stream scenario input (cut mid-string, mid-array,
mid-object). -/
def truncatedStreamSample : String :=
  "\x7b\"name\":\"X\",\"children\":[\x7b\"type\":\"TEXT\",\"characters\":\"Hel"

/-- The document the truncated-stream scenario expects the repair to
produce. -/
def truncatedStreamExpected : JVal :=
  .jobj [("name", .jstr "X"),
         ("children", .jarr [.jobj [("type", .jstr "TEXT"), ("characters", .jstr "Hel")]])]

/-- A design document whose serialization ends in a multi-digit number. -/
def widthDoc : JVal := .jobj [("name", .jstr "X"), ("width", .jnum 375)]

/-! ### Sample environments for the renderer and resolver claims -/

/-- A variable whose stored value is itself an alias — the normal shape
of a semantic token pointing at a primitive. -/
def aliasedColorVar : HostVariable := ⟨"v1", "Primary", [("m1", .aliasValue "v0")]⟩

/-- A variable that aliases itself: a one-step cycle. -/
def cyclicVar : HostVariable := ⟨"a", "a", [("m", .aliasValue "a")]⟩

/-- A linear alias chain `chainStart -> a1 -> ... -> an`, with `an`
holding the number 42: resolving needs exactly `n` hops. -/
def chainVar (n i : Nat) : HostVariable :=
  if i = n then ⟨"a" ++ toString i, "a" ++ toString i, [("m", .floatValue 42)]⟩
  else ⟨"a" ++ toString i, "a" ++ toString i, [("m", .aliasValue ("a" ++ toString (i + 1)))]⟩

def chainEnv (n : Nat) : List (String × HostVariable) :=
  (List.range n).map (fun j => ("a" ++ toString (j + 1), chainVar n (j + 1)))

def chainStart (_n : Nat) : HostVariable :=
  ⟨"a0", "a0", [("m", .aliasValue "a1")]⟩

def emptyCaches : StyleCaches := ⟨[], [], [], []⟩

def emptyEnv : RenderEnv := ⟨emptyCaches, [], [], [], true, (0, 0)⟩

/-- A spacing variable `Spacing/md = 16`. -/
def mdVar : HostVariable := ⟨"s1", "Spacing/md", [("m", .floatValue 16)]⟩

def spacingEnv : RenderEnv :=
  ⟨⟨[], [], [("Spacing/md", mdVar)], [("s1", mdVar)]⟩, [], [], [], true, (0, 0)⟩

/-- An auto-layout node declaring an unresolvable spacing reference next
to literal spacing and padding values. -/
def spacingProps : DesignProps :=
  { layoutMode := some "VERTICAL",
    itemSpacingVariable := some "nope", itemSpacing := some 12,
    paddingVariable := some "nope", padding := some (16, 16, 16, 16) }

/-- A root document declaring `layoutMode: "NONE"`. -/
def noneLayoutDesign : Element := .node { name := some "Doc", layoutMode := some "NONE" } []

/-! ### Predicates for the sizing claims -/

/-- A declared sizing mode the renderer recognizes: absent or falsy
(defaulted), or one of HUG/FIXED/FILL. -/
def sizingModeDeclOk (o : Option String) : Bool :=
  if strTruthy o then
    (o.getD "" == "HUG" || o.getD "" == "FIXED" || o.getD "" == "FILL")
  else true

def propsSizingDeclOk (p : DesignProps) : Bool :=
  sizingModeDeclOk p.primaryAxisSizingMode && sizingModeDeclOk p.counterAxisSizingMode

/-- Strict positivity of a rational, as a Boolean. -/
def posQ (q : ℚ) : Bool := decide (0 < q.num)

def propsDimsPos (p : DesignProps) : Bool :=
  (match p.width with | some w => posQ w | none => true) &&
  (match p.height with | some h => posQ h | none => true)

mutual

/-- Every node of the tree declares recognizable sizing modes and
positive dimensions (where declared). -/
def elemDeclOk : Element → Bool
  | .node props children =>
    propsSizingDeclOk props && propsDimsPos props && elemsDeclOk children

def elemsDeclOk : List Element → Bool
  | [] => true
  | e :: es => elemDeclOk e && elemsDeclOk es

end

/-- A rendered frame is sizing-sound: if the pass gave it an auto
layout, both sizing modes were concretely assigned and its extent is
positive on both axes. -/
def frameSizedOk (st : FrameState) : Bool :=
  match st.layoutMode with
  | some m =>
    if m == "NONE" then true
    else
      st.primaryAxisSizingMode.isSome && st.counterAxisSizingMode.isSome &&
      posQ st.width && posQ st.height
  | none => true

mutual

def rnodeSizedOk : RNode → Bool
  | .frameN st children => frameSizedOk st && rnodesSizedOk children
  | _ => true

def rnodesSizedOk : List RNode → Bool
  | [] => true
  | n :: ns => rnodeSizedOk n && rnodesSizedOk ns

end

/-- The frame state of a rendered node, when it is a frame. -/
def rnodeFrameState : RNode → Option FrameState
  | .frameN st _ => some st
  | _ => none

/-- An auto-layout element declaring the unrecognized sizing mode
`"AUTO"` (a plausible model output, as the valid vocabulary is
HUG/FIXED/FILL). -/
def autoSizingElement : Element :=
  .node { type := some "FRAME", layoutMode := some "VERTICAL",
          primaryAxisSizingMode := some "AUTO" } []

/-! ### `colors.ts` and `prompts.ts`: the system prompt builder -/

/-- One channel of `hexToRgb`: `Math.round((n/255)*100)/100`, computed
exactly (`floor(x + 1/2)` as integer division; no value lands exactly on
a half, so double and exact rounding agree). -/
def hexChannel (n : Nat) : ℚ := mkRat (((40 * n + 51) / 102 : Nat) : Int) 100

/-- `hexToRgb(hex)`: an optional `#` then exactly six hex digits; any
other shape gives black. -/
def hexToRgb (hex : String) : RGBv :=
  let cs := match hex.data with | '#' :: r => r | r => r
  match cs with
  | [a, b, c, d, e, f] =>
    match jpHexVal a, jpHexVal b, jpHexVal c, jpHexVal d, jpHexVal e, jpHexVal f with
    | some va, some vb, some vc, some vd, some ve, some vf =>
      ⟨hexChannel (va * 16 + vb), hexChannel (vc * 16 + vd), hexChannel (ve * 16 + vf)⟩
    | _, _, _, _, _, _ => ⟨0, 0, 0⟩
  | _ => ⟨0, 0, 0⟩

/-- `formatColorForPrompt(hex)`: the 0-1 channel triple and the hex. -/
def formatColorForPrompt (hex : String) : String :=
  let rgb := hexToRgb hex
  "\x7b \"r\": " ++ jsNumToString rgb.r ++ ", \"g\": " ++ jsNumToString rgb.g ++
    ", \"b\": " ++ jsNumToString rgb.b ++ " \x7d (" ++ hex ++ ")"

structure ViewportSize where
  width : ℚ
  height : ℚ
  name : String
deriving Repr

structure CustomColorPalette where
  primary : String
  primaryDark : String
  background : String
  backgroundCard : String
  textPrimary : String
  textSecondary : String
  border : String
  success : String
  error : String
  warning : String
deriving Repr

/-- `DEFAULT_COLOR_PALETTE` (`types.ts`). -/
def DEFAULT_COLOR_PALETTE : CustomColorPalette :=
  ⟨"#18A0FB", "#0D8CE6", "#FAFAFA", "#FFFFFF", "#212121", "#757575",
   "#E0E0E0", "#2EB86B", "#E84545", "#FFC107"⟩

inductive VarInfoValue where
  | strV (s : String)
  | numV (q : ℚ)
deriving Repr

def varInfoValueStr : VarInfoValue → String
  | .strV s => s
  | .numV q => jsNumToString q

structure VariableInfo where
  id : String
  name : String
  collection : String
  value : VarInfoValue
  isToken : Bool
  description : Option String := none
deriving Repr

structure TextStyleInfo where
  id : String
  name : String
  fontFamily : String
  fontSize : ℚ
  fontWeight : ℚ
  lineHeight : Option ℚ := none
  letterSpacing : Option ℚ := none
deriving Repr

structure ComponentInfo where
  key : String
  name : String
  description : Option String := none
deriving Repr

structure DesignSystemContext where
  colorVariables : List VariableInfo
  spacingVariables : List VariableInfo
  textStyles : List TextStyleInfo
  components : List ComponentInfo
deriving Repr

/-! The fixed text segments of `buildSystemPrompt`, verbatim from the
template literals of `prompts.ts` (interpolation points split the
template). -/

def promptHead : String :=
  "You are a UI/UX design assistant that generates Figma-compatible design specifications in JSON format.\n\n## Output Format\nYou MUST respond with valid JSON only. No markdown, no explanations, just the JSON object.\n\n## CRITICAL: Frame Sizing\nEvery FRAME must have sizing modes set to prevent 1px wide/tall elements:\n- \"primaryAxisSizingMode\": \"HUG\" | \"FILL\" | \"FIXED\" - how frame sizes along its layout direction\n- \"counterAxisSizingMode\": \"HUG\" | \"FILL\" | \"FIXED\" - how frame sizes perpendicular to layout\n\nSIZING RULES:\n- Root frame: primaryAxisSizingMode: \"HUG\", counterAxisSizingMode: \"FIXED\" (uses viewport width)\n- Container frames: Usually \"HUG\" for both (wraps content)\n- Full-width elements: Use \"layoutAlign\": \"STRETCH\" to fill parent width\n- Growing elements: Use \"layoutGrow\": 1 to expand in parent's direction\n\nThe JSON must follow this schema for a frame/screen:\n\x7b\n  \"name\": \"Screen Name\",\n  \"layoutMode\": \"VERTICAL\",\n  \"primaryAxisSizingMode\": \"HUG\",\n  \"counterAxisSizingMode\": \"FIXED\",\n  \"children\": [\n    \x7b\n      \"type\": \"FRAME\" | \"TEXT\" | \"RECTANGLE\" | \"ELLIPSE\" | \"LINE\",\n      \"name\": \"Element Name\",\n      \"layoutMode\": \"NONE\" | \"HORIZONTAL\" | \"VERTICAL\",\n      \"primaryAxisSizingMode\": \"HUG\" | \"FILL\" | \"FIXED\",\n      \"counterAxisSizingMode\": \"HUG\" | \"FILL\" | \"FIXED\",\n      \"primaryAxisAlignItems\": \"MIN\" | \"CENTER\" | \"MAX\" | \"SPACE_BETWEEN\",\n      \"counterAxisAlignItems\": \"MIN\" | \"CENTER\" | \"MAX\",\n      \"padding\": \x7b \"top\": number, \"right\": number, \"bottom\": number, \"left\": number \x7d,\n      \"itemSpacing\": number,\n      \"layoutAlign\": \"STRETCH\" | \"INHERIT\",\n      \"layoutGrow\": number,\n      \"fills\": [...],\n      \"strokes\": [...],\n      \"strokeWeight\": number,\n      \"cornerRadius\": number,\n      \"effects\": [...],\n      \"children\": [...]\n    \x7d\n  ]\n\x7d\n\n## Design Guidelines\n- Target viewport: "

def promptGuidelines : String :=
  ")\n- ROOT FRAME MUST have layoutMode: \"VERTICAL\" with proper padding\n- Use auto-layout (layoutMode: \"VERTICAL\" or \"HORIZONTAL\") for ALL containers\n- EVERY FRAME must have primaryAxisSizingMode and counterAxisSizingMode set\n- Use layoutAlign: \"STRETCH\" for elements that should fill parent width\n- Colors are in 0-1 range (e.g., white is \x7b \"r\": 1, \"g\": 1, \"b\": 1 \x7d)\n- Create semantic, descriptive names for layers"

def dsHeaderSeg : String :=
  "\n\n## DESIGN SYSTEM TOKENS - MANDATORY USAGE\nThis file has semantic design tokens. You MUST use these tokens by name - NEVER use raw values."

def colorsSegA : String :=
  "\n\n### COLOR TOKENS - USE \"colorVariable\" ONLY (MANDATORY)\nYou MUST use these exact token names for ALL colors. Raw RGB/hex values are NOT allowed.\n\nAvailable color tokens:\n"

def colorsSegB : String :=
  "\n\nONLY valid format - use colorVariable with exact token name:\n\"fills\": [\x7b \"type\": \"SOLID\", \"colorVariable\": \"Background/Primary\" \x7d]\n\"strokes\": [\x7b \"type\": \"SOLID\", \"colorVariable\": \"Border/Default\" \x7d]\n\nINVALID - these formats will cause errors:\n\"fills\": [\x7b \"type\": \"SOLID\", \"color\": \x7b \"r\": 1, \"g\": 1, \"b\": 1 \x7d \x7d]\n\"fills\": [\x7b \"type\": \"SOLID\", \"color\": \"#FFFFFF\" \x7d]\n\nPick the most semantically appropriate token for each use case."

def spacingSegA : String :=
  "\n\n### SPACING TOKENS - USE \"paddingVariable\" and \"itemSpacingVariable\" (MANDATORY)\nYou MUST use these exact token names for ALL spacing. Raw numbers are NOT allowed.\n\nAvailable spacing tokens:\n"

def spacingSegB : String :=
  "\n\nONLY valid format - use variable names:\n\"paddingVariable\": \"Spacing/md\"\n\"itemSpacingVariable\": \"Spacing/sm\"\n\nINVALID - these formats will cause errors:\n\"padding\": \x7b \"top\": 16, \"right\": 16, \"bottom\": 16, \"left\": 16 \x7d\n\"itemSpacing\": 8\n\nPick the token with the closest value for your needs."

def textSegA : String :=
  "\n\n### TEXT STYLES - USE \"textStyleName\" (REQUIRED)\nAvailable text styles (use exact name string):\n"

def textSegB : String :=
  "\n\nCORRECT:\n\x7b \"type\": \"TEXT\", \"characters\": \"Hello\", \"textStyleName\": \"Body/Regular\" \x7d\n\nWRONG - Never set font properties manually:\n\x7b \"type\": \"TEXT\", \"characters\": \"Hello\", \"fontSize\": 16, \"fontFamily\": \"Inter\" \x7d"

def compSegA : String :=
  "\n\n### Available Components (use type: \"INSTANCE\" with componentKey):\n"

def strictRulesSeg : String :=
  "\n\n## STRICT TOKEN RULES - FOLLOW EXACTLY\n1. COLORS: Use \"colorVariable\" with token name - NEVER raw RGB values\n2. TEXT: Use \"textStyleName\" - NEVER fontSize/fontFamily/fontWeight\n3. SPACING: Use \"paddingVariable\"/\"itemSpacingVariable\" - NEVER raw numbers\n4. Choose semantically appropriate tokens (e.g., \"Background/Primary\" for main bg, \"Text/Primary\" for main text)\n5. If a token name seems appropriate for the context, USE IT"

def paletteSegA : String :=
  "\n\n## Color Palette (USE THESE COLORS)\nUse this color palette for your designs:\n\n### Primary Colors\n- Primary: "

def ctxSegA : String :=
  "\n\n## Additional Design Requirements\n"

def finalSeg : String :=
  "\n\n## Input Fields Example (using tokens)\nFor text input fields, use a FRAME with design tokens:\n\x7b\n  \"type\": \"FRAME\",\n  \"name\": \"Input Field\",\n  \"layoutMode\": \"HORIZONTAL\",\n  \"primaryAxisSizingMode\": \"HUG\",\n  \"counterAxisSizingMode\": \"HUG\",\n  \"counterAxisAlignItems\": \"CENTER\",\n  \"paddingVariable\": \"Spacing/md\",\n  \"itemSpacingVariable\": \"Spacing/sm\",\n  \"cornerRadius\": 8,\n  \"fills\": [\x7b \"type\": \"SOLID\", \"colorVariable\": \"Background/Secondary\" \x7d],\n  \"strokes\": [\x7b \"type\": \"SOLID\", \"colorVariable\": \"Border/Default\" \x7d],\n  \"strokeWeight\": 1,\n  \"layoutAlign\": \"STRETCH\",\n  \"children\": [\n    \x7b \"type\": \"TEXT\", \"name\": \"Placeholder\", \"characters\": \"Enter text...\", \"textStyleName\": \"Body/Regular\", \"fills\": [\x7b \"type\": \"SOLID\", \"colorVariable\": \"Text/Secondary\" \x7d], \"layoutGrow\": 1 \x7d\n  ]\n\x7d\n\n## Important Rules\n1. ONLY output valid JSON - no markdown code blocks, no explanations\n2. The root object should have \"name\" and \"children\" properties\n3. Every FRAME must have primaryAxisSizingMode and counterAxisSizingMode\n4. Use realistic content (not \"Lorem ipsum\")\n5. Ensure good touch targets (minimum 44px for buttons)\n6. counterAxisAlignItems can ONLY be: \"MIN\", \"CENTER\", \"MAX\"\n7. Max 3-4 levels of nesting to avoid truncation\n8. ALWAYS use design tokens - colorVariable, paddingVariable, itemSpacingVariable, textStyleName"

/-- `buildSystemPrompt(viewport, designSystem, contextInstructions,
customColors)`: the always-emitted contract and guidelines; then either
the design-system token blocks with the mandatory-usage rules (when a
snapshot has at least one populated category) or the fallback palette
block; then the user's instructions (when nonempty after trimming);
then the closing example and numbered rules.  Category caps are
`DESIGN_SYSTEM_LIMITS` (50/30/25/50). -/
def buildSystemPrompt (viewport : ViewportSize) (designSystem : Option DesignSystemContext)
    (contextInstructions : String) (customColors : Option CustomColorPalette) : String :=
  let prompt := promptHead ++ jsNumToString viewport.width ++ "x" ++
    jsNumToString viewport.height ++ "px (" ++ viewport.name ++ promptGuidelines
  let paletteBlock :=
    let colors := customColors.getD DEFAULT_COLOR_PALETTE
    paletteSegA ++ formatColorForPrompt colors.primary ++
    "\n- Primary Dark: " ++ formatColorForPrompt colors.primaryDark ++
    "\n\n### Backgrounds\n- Background: " ++ formatColorForPrompt colors.background ++
    "\n- Card Background: " ++ formatColorForPrompt colors.backgroundCard ++
    "\n\n### Text Colors\n- Text Primary: " ++ formatColorForPrompt colors.textPrimary ++
    "\n- Text Secondary: " ++ formatColorForPrompt colors.textSecondary ++
    "\n\n### UI Colors\n- Border: " ++ formatColorForPrompt colors.border ++
    "\n- Success: " ++ formatColorForPrompt colors.success ++
    "\n- Error: " ++ formatColorForPrompt colors.error ++
    "\n- Warning: " ++ formatColorForPrompt colors.warning ++
    "\n\nUse Background (" ++ colors.background ++
    ") for page backgrounds.\nUse fontFamily: \"Inter\", fontWeight: 400 or 700."
  let prompt :=
    match designSystem with
    | some ds =>
      if ds.colorVariables.length > 0 || ds.spacingVariables.length > 0 ||
         ds.textStyles.length > 0 || ds.components.length > 0 then
        let prompt := prompt ++ dsHeaderSeg
        let prompt :=
          if ds.colorVariables.length > 0 then
            prompt ++ colorsSegA ++ String.intercalate "\n"
              ((ds.colorVariables.take 50).map (fun c => "- \"" ++ c.name ++ "\"")) ++
            colorsSegB
          else prompt
        let prompt :=
          if ds.spacingVariables.length > 0 then
            prompt ++ spacingSegA ++ String.intercalate "\n"
              ((ds.spacingVariables.take 30).map (fun sv =>
                "- \"" ++ sv.name ++ "\" = " ++ varInfoValueStr sv.value ++ "px")) ++
            spacingSegB
          else prompt
        let prompt :=
          if ds.textStyles.length > 0 then
            prompt ++ textSegA ++ String.intercalate "\n"
              ((ds.textStyles.take 25).map (fun t =>
                "- \"" ++ t.name ++ "\" (" ++ t.fontFamily ++ " " ++
                jsNumToString t.fontWeight ++ " " ++ jsNumToString t.fontSize ++ "px)")) ++
            textSegB
          else prompt
        let prompt :=
          if ds.components.length > 0 then
            prompt ++ compSegA ++ String.intercalate "\n"
              ((ds.components.take 50).map (fun c =>
                "- " ++ c.name ++ ": \"" ++ c.key ++ "\"" ++
                (if strTruthy c.description then " - " ++ c.description.getD "" else "")))
          else prompt
        prompt ++ strictRulesSeg
      else prompt ++ paletteBlock
    | none => prompt ++ paletteBlock
  let prompt :=
    if !(jsTrim contextInstructions.data).isEmpty then
      prompt ++ ctxSegA ++ contextInstructions
    else prompt
  prompt ++ finalSeg

/-- The fallback palette block of `buildSystemPrompt` for
`customColors = none` (so `DEFAULT_COLOR_PALETTE`), mirroring the
`paletteBlock` binding. -/
def fbPalette : String :=
  paletteSegA ++ formatColorForPrompt DEFAULT_COLOR_PALETTE.primary ++
  "\n- Primary Dark: " ++ formatColorForPrompt DEFAULT_COLOR_PALETTE.primaryDark ++
  "\n\n### Backgrounds\n- Background: " ++ formatColorForPrompt DEFAULT_COLOR_PALETTE.background ++
  "\n- Card Background: " ++ formatColorForPrompt DEFAULT_COLOR_PALETTE.backgroundCard ++
  "\n\n### Text Colors\n- Text Primary: " ++ formatColorForPrompt DEFAULT_COLOR_PALETTE.textPrimary ++
  "\n- Text Secondary: " ++ formatColorForPrompt DEFAULT_COLOR_PALETTE.textSecondary ++
  "\n\n### UI Colors\n- Border: " ++ formatColorForPrompt DEFAULT_COLOR_PALETTE.border ++
  "\n- Success: " ++ formatColorForPrompt DEFAULT_COLOR_PALETTE.success ++
  "\n- Error: " ++ formatColorForPrompt DEFAULT_COLOR_PALETTE.error ++
  "\n- Warning: " ++ formatColorForPrompt DEFAULT_COLOR_PALETTE.warning ++
  "\n\nUse Background (" ++ DEFAULT_COLOR_PALETTE.background ++
  ") for page backgrounds.\nUse fontFamily: \"Inter\", fontWeight: 400 or 700."

/-- The prompt for the fallback scenario: 375x812 Mobile viewport, no
design-system snapshot, no context instructions, no custom palette. -/
def fbPrompt : String :=
  buildSystemPrompt ⟨mkRat 375 1, mkRat 812 1, "Mobile"⟩ none "" none

/-- A design-system snapshot with a single color variable (the other
categories empty), enough to take the design-system branch. -/
def dsSampleCtx : DesignSystemContext :=
  ⟨[⟨"v1", "Background/Primary", "Colors", .strV "", true, none⟩], [], [], []⟩

/-- The prompt for the same viewport with `dsSampleCtx` present. -/
def dsPrompt : String :=
  buildSystemPrompt ⟨mkRat 375 1, mkRat 812 1, "Mobile"⟩ (some dsSampleCtx) "" none

/-- Windowed absence scanner: checks `strIncludes` piecewise over
windows of `w` characters (each extended by `sub.length - 1` overlap
characters), so that no single kernel scan exceeds the window size.
Sound for infix-absence by `noOccurW_sound`. -/
def noOccurW (sub : List Char) (w : Nat) : Nat → List Char → Bool
  | 0, l => !(strIncludes l sub)
  | fuel + 1, l =>
    if (l.drop (w + (sub.length - 1))).isEmpty then !(strIncludes l sub)
    else !(strIncludes (l.take (w + (sub.length - 1))) sub) &&
      noOccurW sub w fuel (l.drop w)

/-! ## Theorems -/

theorem pdjRepairAttempt_ok_check {cs : List Char} {v : JVal}
    (h : pdjRepairAttempt cs = Except.ok v) : hasNameOrChildren v = true := by
  unfold pdjRepairAttempt at h
  split at h
  · split at h
    · cases h; assumption
    · simp at h
  · simp at h

theorem pdjRepairAttempt_error_msg {cs : List Char} {e : String}
    (h : pdjRepairAttempt cs = Except.error e) : e = parseErrorMessage := by
  unfold pdjRepairAttempt at h
  split at h
  · split at h
    · simp at h
    · cases h; rfl
  · cases h; rfl

theorem parseDesignJson_ok_check {s : String} {v : JVal}
    (h : parseDesignJson s = Except.ok v) : hasNameOrChildren v = true := by
  unfold parseDesignJson at h
  split at h
  · split at h
    · cases h; assumption
    · exact pdjRepairAttempt_ok_check h
  · exact pdjRepairAttempt_ok_check h

theorem parseDesignJson_error_msg {s : String} {e : String}
    (h : parseDesignJson s = Except.error e) : e = parseErrorMessage := by
  unfold parseDesignJson at h
  split at h
  · split at h
    · simp at h
    · exact pdjRepairAttempt_error_msg h
  · exact pdjRepairAttempt_error_msg h

theorem fence_not_taken {cs : List Char} (h : cs.head? = some '\x7b') :
    (if fenceTicks.isPrefixOf cs then stripCodeFence cs else cs) = cs := by
  cases cs with
  | nil => simp at h
  | cons c t =>
    have hc : c = '\x7b' := by simpa using h
    subst hc
    have hb : (backtick == '\x7b') = false := by decide
    simp [fenceTicks, List.isPrefixOf, hb]

theorem sliceBraces_clean {cs : List Char}
    (h1 : cs.head? = some '\x7b') (h2 : cs.getLast? = some '\x7d') :
    sliceBraces cs = cs := by
  cases cs with
  | nil => simp at h1
  | cons c t =>
    have hc : c = '\x7b' := by simpa using h1
    subst hc
    have hf : List.findIdx? (· == '\x7b') ('\x7b' :: t) = some 0 := by
      simp [List.findIdx?_cons]
    have hrev : ('\x7b' :: t).reverse.head? = some '\x7d' := by
      rw [List.head?_reverse]; exact h2
    obtain ⟨r, hr⟩ : ∃ r, ('\x7b' :: t).reverse = '\x7d' :: r := by
      cases hrv : ('\x7b' :: t).reverse with
      | nil => rw [hrv] at hrev; simp at hrev
      | cons d r =>
        rw [hrv] at hrev
        have hd : d = '\x7d' := by simpa using hrev
        exact ⟨r, by rw [hd]⟩
    have hg : List.findIdx? (· == '\x7d') (('\x7b' :: t).reverse) = some 0 := by
      rw [hr]; simp [List.findIdx?_cons]
    unfold sliceBraces
    rw [hf, hg]
    simp [List.take_length]

theorem pdjPreprocess_clean {cs : List Char} (h0 : jsTrim cs = cs)
    (h1 : cs.head? = some '\x7b') (h2 : cs.getLast? = some '\x7d') :
    pdjPreprocess cs = cs := by
  unfold pdjPreprocess
  rw [h0, fence_not_taken h1, sliceBraces_clean h1 h2]

set_option maxRecDepth 16384 in
/-- C10: `parseDesignJson` validates by truthiness, not field presence:
any (trimmed, brace-delimited) input parsing to an object with a truthy
`name` or a truthy `children` is returned as-is with no further schema
validation; an input whose `name` is the empty string and that lacks
`children` raises the parse error even though a `name` field is present;
`children: []` (truthy, being an array) passes. -/
theorem parseDesignJson_truthiness_validation :
    (∀ (s : String) (v : JVal),
        jsTrim s.data = s.data →
        s.data.head? = some '\x7b' →
        s.data.getLast? = some '\x7d' →
        jsonParse s.data = some v →
        hasNameOrChildren v = true →
        parseDesignJson s = Except.ok v) ∧
    parseDesignJson "\x7b\"name\":\"\"\x7d" = Except.error parseErrorMessage ∧
    parseDesignJson "\x7b\"name\":\"A\",\"x\":5\x7d" =
      Except.ok (.jobj [("name", .jstr "A"), ("x", .jnum 5)]) ∧
    parseDesignJson "\x7b\"children\":[]\x7d" =
      Except.ok (.jobj [("children", .jarr [])]) := by
  refine ⟨?_, by rfl, by rfl, by rfl⟩
  intro s v h0 h1 h2 h4 h5
  unfold parseDesignJson
  rw [pdjPreprocess_clean h0 h1 h2, h4]
  show (if hasNameOrChildren v = true then Except.ok v
        else pdjRepairAttempt s.data) = Except.ok v
  rw [if_pos h5]

set_option maxRecDepth 16384 in
/-- C10 (witness): the truthiness-validation theorem applied at the
concrete input `\x7b"name":"A","x":5\x7d`. -/
theorem parseDesignJson_truthiness_validation_witness :
    parseDesignJson "\x7b\"name\":\"A\",\"x\":5\x7d" =
      Except.ok (.jobj [("name", .jstr "A"), ("x", .jnum 5)]) :=
  parseDesignJson_truthiness_validation.1 "\x7b\"name\":\"A\",\"x\":5\x7d"
    (.jobj [("name", .jstr "A"), ("x", .jnum 5)]) rfl rfl rfl rfl rfl

set_option maxRecDepth 16384 in
/-- C1 (counterexample): on the truncated-stream scenario input,
`parseDesignJson` does not return the repaired document the claim
describes — it fails with the parse error. -/
theorem truncated_stream_scenario_fails :
    parseDesignJson truncatedStreamSample = Except.error parseErrorMessage ∧
    parseDesignJson truncatedStreamSample ≠ Except.ok truncatedStreamExpected := by
  refine ⟨rfl, ?_⟩
  intro h
  rw [show parseDesignJson truncatedStreamSample = Except.error parseErrorMessage
        from rfl] at h
  exact Except.noConfusion h

set_option maxRecDepth 16384 in
/-- C1 (amended): on the truncated-stream input, the repair first slices
back to the last complete index — the colon after `"characters"`,
dropping the opening quote of `"Hel` — and then closes the array and the
objects, producing `...,"characters":]\x7d\x7d`, which is not valid JSON;
`parseDesignJson` therefore raises the parse error instead of returning a
repaired document. -/
theorem truncated_stream_scenario_actual :
    repairTruncatedJson truncatedStreamSample.data =
      ("\x7b\"name\":\"X\",\"children\":[\x7b\"type\":\"TEXT\",\"characters\":]\x7d\x7d").data ∧
    jsonParse (repairTruncatedJson truncatedStreamSample.data) = none ∧
    parseDesignJson truncatedStreamSample = Except.error parseErrorMessage :=
  ⟨rfl, rfl, rfl⟩

set_option maxRecDepth 16384 in
/-- C2 (counterexample): truncating `stringify` of `widthDoc` (whose
`width` is `375`) at prefix length 22 cuts the number after two digits;
`parseDesignJson` repairs the prefix and returns a document whose `width`
field is the well-formed but wrong value `37` — a silently altered
leading field rather than a `ParseError`. -/
theorem parseDesignJson_prefix_truncates_number :
    jsonStringify widthDoc = "\x7b\"name\":\"X\",\"width\":375\x7d" ∧
    parseDesignJson ((jsonStringify widthDoc).take 22) =
      Except.ok (.jobj [("name", .jstr "X"), ("width", .jnum 37)]) ∧
    getProp widthDoc "width" = some (.jnum 375) ∧
    getProp (JVal.jobj [("name", .jstr "X"), ("width", .jnum 37)]) "width" =
      some (.jnum 37) :=
  ⟨rfl, rfl, rfl, rfl⟩

/-- C2 (amended): for every input string, `parseDesignJson` either
returns a document passing the `name`-or-`children` validity check or
fails with the single parse-error message; being a total function of the
input it raises no other exception and never yields a document with
neither field truthy.  (The leading-fields-match part of the original
claim is refuted by the truncated-number counterexample: a field cut
mid-number can survive with a shortened value.) -/
theorem parseDesignJson_total_valid_or_error (s : String) :
    (∃ v, parseDesignJson s = Except.ok v ∧ hasNameOrChildren v = true) ∨
    parseDesignJson s = Except.error parseErrorMessage := by
  cases h : parseDesignJson s with
  | ok v => exact Or.inl ⟨v, rfl, parseDesignJson_ok_check h⟩
  | error e =>
    have he := parseDesignJson_error_msg h
    exact Or.inr (by rw [he])

theorem any_eq_isSome_find? (l : List (String × α)) (p : String × α → Bool) :
    l.any p = (l.find? p).isSome := by
  induction l with
  | nil => rfl
  | cons x xs ih =>
    by_cases hx : p x = true
    · simp [List.any_cons, List.find?_cons_of_pos _ hx, hx]
    · simp [List.any_cons, List.find?_cons_of_neg _ (by simpa using hx),
            (by simpa using hx : p x = false), ih]

theorem findByNameTiered_eq_spec (cache : List (String × α)) (name : String) :
    findByNameTiered cache name = specOrderedLookup cache name := by
  unfold findByNameTiered specOrderedLookup mapHas mapGet
  rw [any_eq_isSome_find?]
  cases h : cache.find? (fun kv => kv.1 == name) with
  | some kv => simp [h]
  | none => simp [h]

/-- C6 (amended): the text-style and color-variable lookups follow the
claimed order exactly — exact match, then case-insensitive exact match,
then case-insensitive substring in either direction, first match winning.
The spacing lookup does not: after the exact tier it runs one combined
case-insensitive pass whose substring test is key-contains-query only, so
an entry that merely contains the query can win over a later entry that
equals it case-insensitively, and a query that contains a key never
matches. -/
theorem lookup_order_characterization :
    (∀ (α : Type) (cache : List (String × α)) (name : String),
        findTextStyle cache name = specOrderedLookup cache name) ∧
    (∀ (α : Type) (cache : List (String × α)) (name : String),
        findColorVariable cache name = specOrderedLookup cache name) ∧
    findSpacingVariable [("PadXL", 1), ("pad", 2)] "Pad" = some 1 ∧
    findSpacingVariable [("pad", (2 : ℕ))] "Spacing/pad" = none := by
  exact ⟨fun α cache name => findByNameTiered_eq_spec cache name,
         fun α cache name => findByNameTiered_eq_spec cache name,
         by rfl, by rfl⟩

/-- C6 (counterexample): with the spacing cache holding `"PadXL"` before
`"pad"`, looking up `"Pad"` returns the `"PadXL"` entry although `"pad"`
is a case-insensitive exact match, and looking up `"Spacing/pad"` (query
contains key) finds nothing — both contradict the claimed uniform
three-tier order, which `specOrderedLookup` renders. -/
theorem spacing_lookup_order_violated :
    findSpacingVariable [("PadXL", 1), ("pad", 2)] "Pad" = some 1 ∧
    specOrderedLookup [("PadXL", 1), ("pad", 2)] "Pad" = some 2 ∧
    findSpacingVariable [("pad", (2 : ℕ))] "Spacing/pad" = none ∧
    specOrderedLookup [("pad", (2 : ℕ))] "Spacing/pad" = some 2 :=
  ⟨rfl, rfl, rfl, rfl⟩

theorem aliasChase_all_alias {byId : List (String × HostVariable)}
    (h : ∀ id v, mapGet byId id = some v → isVariableAlias (firstModeValue v) = true) :
    ∀ (fuel : Nat) (value : Option VarValue), isVariableAlias value = true →
      isVariableAlias (aliasChase byId fuel value) = true := by
  intro fuel
  induction fuel with
  | zero => intro value hv; simpa [aliasChase] using hv
  | succ f ih =>
    intro value hv
    match value, hv with
    | some (.aliasValue aliasId), _ =>
      show isVariableAlias
        (match mapGet byId aliasId with
         | none => some (.aliasValue aliasId)
         | some aliasedVar => aliasChase byId f (firstModeValue aliasedVar)) = true
      cases hm : mapGet byId aliasId with
      | none => rfl
      | some aliasedVar => exact ih _ (h aliasId aliasedVar hm)

/-- C9: alias-chain resolution terminates on every input with at most 10
hops.  (a) In an environment where every reachable value is an alias —
cycles included — both resolvers return `none` instead of looping;
(b) a linear chain whose concrete value sits exactly 10 hops away still
resolves, while one needing an 11th hop returns `none`. -/
theorem alias_resolution_bounded :
    (∀ (byId : List (String × HostVariable)) (hostVar : HostVariable),
        (∀ id v, mapGet byId id = some v → isVariableAlias (firstModeValue v) = true) →
        isVariableAlias (firstModeValue hostVar) = true →
        resolveColorValue byId hostVar = none ∧ resolveNumberValue byId hostVar = none) ∧
    resolveNumberValue (chainEnv 10) (chainStart 10) = some 42 ∧
    resolveNumberValue (chainEnv 11) (chainStart 11) = none := by
  refine ⟨?_, by rfl, by rfl⟩
  intro byId hostVar h hv
  have hres := aliasChase_all_alias h 10 _ hv
  constructor
  · unfold resolveColorValue
    cases hc : aliasChase byId 10 (firstModeValue hostVar) with
    | none => rfl
    | some v =>
      cases v with
      | colorValue r g b a => rw [hc] at hres; simp [isVariableAlias] at hres
      | floatValue x => rfl
      | aliasValue id => rfl
  · unfold resolveNumberValue
    cases hc : aliasChase byId 10 (firstModeValue hostVar) with
    | none => rfl
    | some v =>
      cases v with
      | colorValue r g b a => rfl
      | floatValue x => rw [hc] at hres; simp [isVariableAlias] at hres
      | aliasValue id => rfl

/-- C9 (witness): the cycle half of the theorem applied to the concrete
self-aliasing variable. -/
theorem alias_resolution_bounded_witness :
    resolveColorValue [("a", cyclicVar)] cyclicVar = none ∧
    resolveNumberValue [("a", cyclicVar)] cyclicVar = none :=
  alias_resolution_bounded.1 [("a", cyclicVar)] cyclicVar
    (fun id v hiv => by
      simp only [mapGet, List.find?] at hiv
      by_cases hid : ("a" == id) = true
      · rw [hid] at hiv
        simp at hiv
        rw [← hiv]
        rfl
      · rw [Bool.not_eq_true] at hid
        rw [hid] at hiv
        simp at hiv)
    rfl

/-- C3 (counterexample): a stroke carrying both the resolvable named
reference `"Primary"` and a literal red: the reference resolves in the
index, but because the variable's stored value is an alias (not a direct
color object) the rendered paint is the literal red — contradicting
"never the literal color". -/
theorem stroke_literal_despite_resolvable_reference :
    findColorVariable [("Primary", aliasedColorVar)] "Primary" = some aliasedColorVar ∧
    convertStrokeWithVariable [("Primary", aliasedColorVar)]
        { type := some "SOLID", colorVariable := some "Primary",
          color := some ⟨1, 0, 0, none⟩ } =
      some (.solid ⟨1, 0, 0⟩ 1) :=
  ⟨rfl, rfl⟩

/-- C3 (amended): when the named color reference resolves AND the found
variable's first-mode value is a direct color object, the converted
paint reflects the variable — a fill binds to it when the node supports
binding, else carries the variable's color; a stroke carries the
variable's color — never the literal.  When the found variable's value
is not a direct color (an alias, say), the converter falls back to the
raw-value tail, so a present literal wins. -/
theorem variable_precedence_characterization :
    (∀ (cache : List (String × HostVariable)) (nodeHasFills canBind : Bool)
        (fill : Fill) (v : HostVariable) (r g b : ℚ) (a : Option ℚ),
        strTruthy fill.colorVariable = true →
        findColorVariable cache (fill.colorVariable.getD "") = some v →
        firstModeValue v = some (.colorValue r g b a) →
        fill.visible ≠ some false →
        convertFillWithVariable cache nodeHasFills canBind fill =
          (if nodeHasFills && canBind then FillResult.boundPaint v (getOpacity fill)
           else FillResult.ret (some (.solid ⟨r, g, b⟩ (getOpacity fill))))) ∧
    (∀ (cache : List (String × HostVariable)) (stroke : Stroke)
        (v : HostVariable) (r g b : ℚ) (a : Option ℚ),
        strTruthy stroke.colorVariable = true →
        findColorVariable cache (stroke.colorVariable.getD "") = some v →
        firstModeValue v = some (.colorValue r g b a) →
        convertStrokeWithVariable cache stroke =
          some (.solid ⟨r, g, b⟩ (getStrokeOpacity stroke))) ∧
    (∀ (cache : List (String × HostVariable)) (stroke : Stroke)
        (v : HostVariable) (aliasId : String),
        strTruthy stroke.colorVariable = true →
        findColorVariable cache (stroke.colorVariable.getD "") = some v →
        firstModeValue v = some (.aliasValue aliasId) →
        convertStrokeWithVariable cache stroke = strokeFallback stroke) := by
  refine ⟨?_, ?_, ?_⟩
  · intro cache nodeHasFills canBind fill v r g b a h1 h2 h3 h4
    have hb : (fill.visible == some false) = false := by
      cases hfv : fill.visible with
      | none => rfl
      | some bv =>
        cases bv with
        | false => exact absurd hfv h4
        | true => rfl
    unfold convertFillWithVariable
    simp [hb, h1, h2, h3]
  · intro cache stroke v r g b a h1 h2 h3
    unfold convertStrokeWithVariable
    simp [h1, h2, h3]
  · intro cache stroke v aliasId h1 h2 h3
    unfold convertStrokeWithVariable
    simp [h1, h2, h3]

/-- C3 (witness): the precedence theorem applied to a stroke whose
reference resolves to a direct blue color while a literal red is also
set; the rendered paint is the variable's blue. -/
theorem variable_precedence_characterization_witness :
    convertStrokeWithVariable
        [("Primary", HostVariable.mk "v2" "Primary" [("m1", .colorValue 0 0 1 none)])]
        { type := some "SOLID", colorVariable := some "Primary",
          color := some ⟨1, 0, 0, none⟩ } =
      some (.solid ⟨0, 0, 1⟩ 1) :=
  variable_precedence_characterization.2.1
    [("Primary", HostVariable.mk "v2" "Primary" [("m1", .colorValue 0 0 1 none)])]
    { type := some "SOLID", colorVariable := some "Primary",
      color := some ⟨1, 0, 0, none⟩ }
    (HostVariable.mk "v2" "Primary" [("m1", .colorValue 0 0 1 none)]) 0 0 1 none
    rfl rfl rfl

theorem afpSize_keeps (st : FrameState) (props : DesignProps) :
    (afpSize st props).itemSpacing = st.itemSpacing ∧
    (afpSize st props).paddingTop = st.paddingTop := by
  unfold afpSize
  try dsimp only
  repeat' split
  all_goals exact ⟨rfl, rfl⟩
theorem alSetMode_keeps (st : FrameState) (props : DesignProps) :
    (alSetMode st props).itemSpacing = st.itemSpacing ∧
    (alSetMode st props).paddingTop = st.paddingTop := by
  unfold alSetMode
  try dsimp only
  repeat' split
  all_goals exact ⟨rfl, rfl⟩
theorem alPrimaryAlign_keeps (st : FrameState) (props : DesignProps) :
    (alPrimaryAlign st props).itemSpacing = st.itemSpacing ∧
    (alPrimaryAlign st props).paddingTop = st.paddingTop := by
  unfold alPrimaryAlign
  try dsimp only
  repeat' split
  all_goals exact ⟨rfl, rfl⟩
theorem alCounterAlign_keeps (st : FrameState) (props : DesignProps) :
    (alCounterAlign st props).itemSpacing = st.itemSpacing ∧
    (alCounterAlign st props).paddingTop = st.paddingTop := by
  unfold alCounterAlign
  try dsimp only
  repeat' split
  all_goals exact ⟨rfl, rfl⟩
theorem alPrimarySizing_keeps (st : FrameState) (props : DesignProps) :
    (alPrimarySizing st props).itemSpacing = st.itemSpacing ∧
    (alPrimarySizing st props).paddingTop = st.paddingTop := by
  unfold alPrimarySizing
  try dsimp only
  repeat' split
  all_goals exact ⟨rfl, rfl⟩
theorem alCounterSizing_keeps (st : FrameState) (props : DesignProps) :
    (alCounterSizing st props).itemSpacing = st.itemSpacing ∧
    (alCounterSizing st props).paddingTop = st.paddingTop := by
  unfold alCounterSizing
  try dsimp only
  repeat' split
  all_goals exact ⟨rfl, rfl⟩
theorem afpStrokeWeight_keeps (st : FrameState) (props : DesignProps) :
    (afpStrokeWeight st props).itemSpacing = st.itemSpacing ∧
    (afpStrokeWeight st props).paddingTop = st.paddingTop := by
  unfold afpStrokeWeight
  try dsimp only
  repeat' split
  all_goals exact ⟨rfl, rfl⟩
theorem afpCorner_keeps (st : FrameState) (props : DesignProps) :
    (afpCorner st props).itemSpacing = st.itemSpacing ∧
    (afpCorner st props).paddingTop = st.paddingTop := by
  unfold afpCorner
  try dsimp only
  repeat' split
  all_goals exact ⟨rfl, rfl⟩
theorem afpEffects_keeps (st : FrameState) (props : DesignProps) :
    (afpEffects st props).itemSpacing = st.itemSpacing ∧
    (afpEffects st props).paddingTop = st.paddingTop := by
  unfold afpEffects
  try dsimp only
  repeat' split
  all_goals exact ⟨rfl, rfl⟩
theorem afpClips_keeps (st : FrameState) (props : DesignProps) :
    (afpClips st props).itemSpacing = st.itemSpacing ∧
    (afpClips st props).paddingTop = st.paddingTop := by
  unfold afpClips
  try dsimp only
  repeat' split
  all_goals exact ⟨rfl, rfl⟩
theorem afpOpacity_keeps (st : FrameState) (props : DesignProps) :
    (afpOpacity st props).itemSpacing = st.itemSpacing ∧
    (afpOpacity st props).paddingTop = st.paddingTop := by
  unfold afpOpacity
  try dsimp only
  repeat' split
  all_goals exact ⟨rfl, rfl⟩
theorem afpAbsPos_keeps (st : FrameState) (props : DesignProps) :
    (afpAbsPos st props).itemSpacing = st.itemSpacing ∧
    (afpAbsPos st props).paddingTop = st.paddingTop := by
  unfold afpAbsPos
  try dsimp only
  repeat' split
  all_goals exact ⟨rfl, rfl⟩
theorem afpAlign_keeps (st : FrameState) (props : DesignProps) :
    (afpAlign st props).itemSpacing = st.itemSpacing ∧
    (afpAlign st props).paddingTop = st.paddingTop := by
  unfold afpAlign
  try dsimp only
  repeat' split
  all_goals exact ⟨rfl, rfl⟩
theorem afpGrow_keeps (st : FrameState) (props : DesignProps) :
    (afpGrow st props).itemSpacing = st.itemSpacing ∧
    (afpGrow st props).paddingTop = st.paddingTop := by
  unfold afpGrow
  try dsimp only
  repeat' split
  all_goals exact ⟨rfl, rfl⟩
theorem afpFills_keeps (env : RenderEnv) (st : FrameState) (props : DesignProps) :
    (afpFills env st props).itemSpacing = st.itemSpacing ∧
    (afpFills env st props).paddingTop = st.paddingTop := by
  unfold afpFills
  try dsimp only
  repeat' split
  all_goals exact ⟨rfl, rfl⟩
theorem afpStrokes_keeps (env : RenderEnv) (st : FrameState) (props : DesignProps) :
    (afpStrokes env st props).itemSpacing = st.itemSpacing ∧
    (afpStrokes env st props).paddingTop = st.paddingTop := by
  unfold afpStrokes
  try dsimp only
  repeat' split
  all_goals exact ⟨rfl, rfl⟩
theorem alItemSpacing_keeps_pad (caches : StyleCaches) (st : FrameState)
    (props : DesignProps) :
    (alItemSpacing caches st props).paddingTop = st.paddingTop := by
  unfold alItemSpacing
  try dsimp only
  repeat' split
  all_goals rfl

theorem alPadding_keeps_spacing (caches : StyleCaches) (st : FrameState)
    (props : DesignProps) :
    (alPadding caches st props).itemSpacing = st.itemSpacing := by
  unfold alPadding
  try dsimp only
  repeat' split
  all_goals rfl

theorem afpRest_keeps (st : FrameState) (props : DesignProps) :
    (afpRest st props).itemSpacing = st.itemSpacing ∧
    (afpRest st props).paddingTop = st.paddingTop := by
  unfold afpRest
  constructor
  · rw [(afpGrow_keeps _ _).1, (afpAlign_keeps _ _).1, (afpAbsPos_keeps _ _).1,
        (afpOpacity_keeps _ _).1, (afpClips_keeps _ _).1, (afpEffects_keeps _ _).1,
        (afpCorner_keeps _ _).1, (afpStrokeWeight_keeps _ _).1]
  · rw [(afpGrow_keeps _ _).2, (afpAlign_keeps _ _).2, (afpAbsPos_keeps _ _).2,
        (afpOpacity_keeps _ _).2, (afpClips_keeps _ _).2, (afpEffects_keeps _ _).2,
        (afpCorner_keeps _ _).2, (afpStrokeWeight_keeps _ _).2]

theorem applyFrameProperties_spacing (env : RenderEnv) (st : FrameState)
    (props : DesignProps) :
    (applyFrameProperties env st props).itemSpacing =
      (afpAutoLayout env.caches (afpSize st props) props).itemSpacing ∧
    (applyFrameProperties env st props).paddingTop =
      (afpAutoLayout env.caches (afpSize st props) props).paddingTop := by
  unfold applyFrameProperties
  constructor
  · rw [(afpRest_keeps _ _).1, (afpStrokes_keeps _ _ _).1, (afpFills_keeps _ _ _).1]
  · rw [(afpRest_keeps _ _).2, (afpStrokes_keeps _ _ _).2, (afpFills_keeps _ _ _).2]

theorem alItemSpacing_resolved (caches : StyleCaches) (st : FrameState)
    (props : DesignProps) (val : ℚ)
    (hv : strTruthy props.itemSpacingVariable = true)
    (hr : resolveSpacingVariable caches (props.itemSpacingVariable.getD "") = some val) :
    (alItemSpacing caches st props).itemSpacing = some val := by
  unfold alItemSpacing
  simp [hv, hr]

theorem alItemSpacing_unresolved (caches : StyleCaches) (st : FrameState)
    (props : DesignProps)
    (hv : strTruthy props.itemSpacingVariable = true)
    (hr : resolveSpacingVariable caches (props.itemSpacingVariable.getD "") = none) :
    (alItemSpacing caches st props).itemSpacing = st.itemSpacing := by
  unfold alItemSpacing
  simp [hv, hr]

theorem alItemSpacing_literal (caches : StyleCaches) (st : FrameState)
    (props : DesignProps)
    (hv : strTruthy props.itemSpacingVariable = false)
    (hlit : props.itemSpacing.isSome = true) :
    (alItemSpacing caches st props).itemSpacing = props.itemSpacing := by
  unfold alItemSpacing
  simp [hv, hlit]

theorem alPadding_unresolved (caches : StyleCaches) (st : FrameState)
    (props : DesignProps)
    (hv : strTruthy props.paddingVariable = true)
    (hr : resolveSpacingVariable caches (props.paddingVariable.getD "") = none) :
    (alPadding caches st props).paddingTop = st.paddingTop := by
  unfold alPadding
  simp [hv, hr]

theorem afpAutoLayout_cond (caches : StyleCaches) (st : FrameState) (props : DesignProps)
    (hl : strTruthy props.layoutMode = true)
    (hn : (props.layoutMode == some "NONE") = false) :
    afpAutoLayout caches st props =
      alCounterSizing
        (alPrimarySizing
          (alPadding caches
            (alItemSpacing caches
              (alCounterAlign (alPrimaryAlign (alSetMode st props) props) props)
              props)
            props)
          props)
        props := by
  unfold afpAutoLayout
  simp [hl, hn]

theorem afpAutoLayout_itemSpacing_resolved (caches : StyleCaches) (st : FrameState)
    (props : DesignProps) (val : ℚ)
    (hl : strTruthy props.layoutMode = true)
    (hn : (props.layoutMode == some "NONE") = false)
    (hv : strTruthy props.itemSpacingVariable = true)
    (hr : resolveSpacingVariable caches (props.itemSpacingVariable.getD "") = some val) :
    (afpAutoLayout caches st props).itemSpacing = some val := by
  rw [afpAutoLayout_cond _ _ _ hl hn, (alCounterSizing_keeps _ _).1,
      (alPrimarySizing_keeps _ _).1, alPadding_keeps_spacing,
      alItemSpacing_resolved _ _ _ _ hv hr]

theorem afpAutoLayout_itemSpacing_unresolved (caches : StyleCaches) (st : FrameState)
    (props : DesignProps)
    (hl : strTruthy props.layoutMode = true)
    (hn : (props.layoutMode == some "NONE") = false)
    (hv : strTruthy props.itemSpacingVariable = true)
    (hr : resolveSpacingVariable caches (props.itemSpacingVariable.getD "") = none) :
    (afpAutoLayout caches st props).itemSpacing = st.itemSpacing := by
  rw [afpAutoLayout_cond _ _ _ hl hn, (alCounterSizing_keeps _ _).1,
      (alPrimarySizing_keeps _ _).1, alPadding_keeps_spacing,
      alItemSpacing_unresolved _ _ _ hv hr, (alCounterAlign_keeps _ _).1,
      (alPrimaryAlign_keeps _ _).1]
  rfl

theorem afpAutoLayout_itemSpacing_literal (caches : StyleCaches) (st : FrameState)
    (props : DesignProps)
    (hl : strTruthy props.layoutMode = true)
    (hn : (props.layoutMode == some "NONE") = false)
    (hv : strTruthy props.itemSpacingVariable = false)
    (hlit : props.itemSpacing.isSome = true) :
    (afpAutoLayout caches st props).itemSpacing = props.itemSpacing := by
  rw [afpAutoLayout_cond _ _ _ hl hn, (alCounterSizing_keeps _ _).1,
      (alPrimarySizing_keeps _ _).1, alPadding_keeps_spacing,
      alItemSpacing_literal _ _ _ hv hlit]

theorem afpAutoLayout_paddingTop_unresolved (caches : StyleCaches) (st : FrameState)
    (props : DesignProps)
    (hl : strTruthy props.layoutMode = true)
    (hn : (props.layoutMode == some "NONE") = false)
    (hv : strTruthy props.paddingVariable = true)
    (hr : resolveSpacingVariable caches (props.paddingVariable.getD "") = none) :
    (afpAutoLayout caches st props).paddingTop = st.paddingTop := by
  rw [afpAutoLayout_cond _ _ _ hl hn, (alCounterSizing_keeps _ _).2,
      (alPrimarySizing_keeps _ _).2, alPadding_unresolved _ _ _ hv hr,
      alItemSpacing_keeps_pad, (alCounterAlign_keeps _ _).2,
      (alPrimaryAlign_keeps _ _).2]
  rfl

/-- C5 (counterexample): an auto-layout node declaring
`itemSpacingVariable: "nope"` (which does not resolve) next to the
literal `itemSpacing: 12`, and likewise for padding: the render pass
leaves both item spacing and padding unassigned — the present literal is
NOT applied, contradicting the claimed uniform three-tier fallback. -/
theorem spacing_literal_ignored_when_variable_unresolved :
    resolveSpacingVariable emptyEnv.caches "nope" = none ∧
    spacingProps.itemSpacing = some 12 ∧
    (applyFrameProperties emptyEnv { name := "F" } spacingProps).itemSpacing = none ∧
    (applyFrameProperties emptyEnv { name := "F" } spacingProps).paddingTop = none :=
  ⟨rfl, rfl, rfl, rfl⟩

/-- C5 (amended): colors do follow reference-then-literal (an unresolved
named reference falls back to the raw-value tail, where a present
literal is used), and a resolvable spacing reference is applied; but for
item spacing and padding a present named reference short-circuits: when
it fails to resolve the property is left untouched (host default), the
literal being consulted only when no reference is present.  No system
default is applied by this pass in any of these cases. -/
theorem resolution_order_characterization :
    (∀ (cache : List (String × HostVariable)) (nodeHasFills canBind : Bool) (fill : Fill),
        strTruthy fill.colorVariable = true →
        findColorVariable cache (fill.colorVariable.getD "") = none →
        fill.visible ≠ some false →
        convertFillWithVariable cache nodeHasFills canBind fill = fillFallback fill) ∧
    (∀ (env : RenderEnv) (st : FrameState) (props : DesignProps) (val : ℚ),
        strTruthy props.layoutMode = true →
        (props.layoutMode == some "NONE") = false →
        strTruthy props.itemSpacingVariable = true →
        resolveSpacingVariable env.caches (props.itemSpacingVariable.getD "") = some val →
        (applyFrameProperties env st props).itemSpacing = some val) ∧
    (∀ (env : RenderEnv) (st : FrameState) (props : DesignProps),
        strTruthy props.layoutMode = true →
        (props.layoutMode == some "NONE") = false →
        strTruthy props.itemSpacingVariable = true →
        resolveSpacingVariable env.caches (props.itemSpacingVariable.getD "") = none →
        (applyFrameProperties env st props).itemSpacing = st.itemSpacing) ∧
    (∀ (env : RenderEnv) (st : FrameState) (props : DesignProps),
        strTruthy props.layoutMode = true →
        (props.layoutMode == some "NONE") = false →
        strTruthy props.itemSpacingVariable = false →
        props.itemSpacing.isSome = true →
        (applyFrameProperties env st props).itemSpacing = props.itemSpacing) ∧
    (∀ (env : RenderEnv) (st : FrameState) (props : DesignProps),
        strTruthy props.layoutMode = true →
        (props.layoutMode == some "NONE") = false →
        strTruthy props.paddingVariable = true →
        resolveSpacingVariable env.caches (props.paddingVariable.getD "") = none →
        (applyFrameProperties env st props).paddingTop = st.paddingTop) := by
  refine ⟨?_, ?_, ?_, ?_, ?_⟩
  · intro cache nodeHasFills canBind fill h1 h2 h3
    have hb : (fill.visible == some false) = false := by
      cases hfv : fill.visible with
      | none => rfl
      | some bv =>
        cases bv with
        | false => exact absurd hfv h3
        | true => rfl
    unfold convertFillWithVariable
    simp [h1, h2, hb]
  · intro env st props val h1 h2 h3 h4
    rw [(applyFrameProperties_spacing env st props).1]
    exact afpAutoLayout_itemSpacing_resolved _ _ _ _ h1 h2 h3 h4
  · intro env st props h1 h2 h3 h4
    rw [(applyFrameProperties_spacing env st props).1,
        afpAutoLayout_itemSpacing_unresolved _ _ _ h1 h2 h3 h4,
        (afpSize_keeps st props).1]
  · intro env st props h1 h2 h3 h4
    rw [(applyFrameProperties_spacing env st props).1]
    exact afpAutoLayout_itemSpacing_literal _ _ _ h1 h2 h3 h4
  · intro env st props h1 h2 h3 h4
    rw [(applyFrameProperties_spacing env st props).2,
        afpAutoLayout_paddingTop_unresolved _ _ _ h1 h2 h3 h4,
        (afpSize_keeps st props).2]

/-- C5 (witness): the resolvable-reference conjunct applied to a node
referencing `Spacing/md = 16`. -/
theorem resolution_order_characterization_witness :
    (applyFrameProperties spacingEnv { name := "F" }
        { layoutMode := some "VERTICAL",
          itemSpacingVariable := some "Spacing/md",
          itemSpacing := some 12 }).itemSpacing = some 16 :=
  resolution_order_characterization.2.1 spacingEnv { name := "F" }
    { layoutMode := some "VERTICAL", itemSpacingVariable := some "Spacing/md",
      itemSpacing := some 12 } 16 rfl rfl rfl rfl

/-- C7 (counterexample): a document declaring `layoutMode: "NONE"` comes
back from the render pass with `layoutMode: "VERTICAL"` — `renderDesign`
writes the forced layout back into the input document, so the renderer
does not consume it read-only. -/
theorem render_mutates_root_layout :
    ((renderDesign emptyEnv noneLayoutDesign (100, 200)).1).props.layoutMode =
      some "VERTICAL" ∧
    noneLayoutDesign.props.layoutMode = some "NONE" ∧
    (renderDesign emptyEnv noneLayoutDesign (100, 200)).1 ≠ noneLayoutDesign := by
  refine ⟨rfl, rfl, ?_⟩
  intro h
  have hproj := congrArg (fun e => e.props.layoutMode) h
  exact absurd hproj (by decide)

/-- C7 (amended): the render pass can write to the input document, but
only to the root's `layoutMode`, `primaryAxisAlignItems` and
`counterAxisAlignItems`, and only when the declared layout mode is
absent, falsy, or `NONE`; every other root field and the entire child
tree come back unchanged, and a root declaring `HORIZONTAL` or
`VERTICAL` comes back identical. -/
theorem renderDesign_mutation_only_root_layout :
    (∀ (env : RenderEnv) (props : DesignProps) (children : List Element) (vp : ℚ × ℚ),
        strTruthy props.layoutMode = true →
        (props.layoutMode == some "NONE") = false →
        (renderDesign env (.node props children) vp).1 = .node props children) ∧
    (∀ (env : RenderEnv) (props : DesignProps) (children : List Element) (vp : ℚ × ℚ),
        ((renderDesign env (.node props children) vp).1).childList = children ∧
        ((renderDesign env (.node props children) vp).1).props =
          { props with
              layoutMode :=
                ((renderDesign env (.node props children) vp).1).props.layoutMode,
              primaryAxisAlignItems :=
                ((renderDesign env (.node props children) vp).1).props.primaryAxisAlignItems,
              counterAxisAlignItems :=
                ((renderDesign env (.node props children) vp).1).props.counterAxisAlignItems }) := by
  constructor
  · intro env props children vp h1 h2
    unfold renderDesign
    simp [h1, h2]
  · intro env props children vp
    unfold renderDesign
    constructor
    · try dsimp only
      split <;> rfl
    · try dsimp only
      split <;> rfl

/-- C7 (witness): the no-mutation conjunct applied to a root declaring
`VERTICAL`: the document comes back unchanged. -/
theorem renderDesign_mutation_only_root_layout_witness :
    (renderDesign emptyEnv
        (.node { name := some "Doc", layoutMode := some "VERTICAL" } []) (100, 200)).1 =
      .node { name := some "Doc", layoutMode := some "VERTICAL" } [] :=
  renderDesign_mutation_only_root_layout.1 emptyEnv
    { name := some "Doc", layoutMode := some "VERTICAL" } [] (100, 200) rfl rfl

theorem afpSize_keepsGeo (st : FrameState) (props : DesignProps) :
    (afpSize st props).layoutMode = st.layoutMode ∧
    (afpSize st props).primaryAxisSizingMode = st.primaryAxisSizingMode ∧
    (afpSize st props).counterAxisSizingMode = st.counterAxisSizingMode := by
  unfold afpSize
  try dsimp only
  repeat' split
  all_goals exact ⟨rfl, rfl, rfl⟩

theorem alSetMode_keepsGeo (st : FrameState) (props : DesignProps) :
    (alSetMode st props).width = st.width ∧
    (alSetMode st props).height = st.height ∧
    (alSetMode st props).primaryAxisSizingMode = st.primaryAxisSizingMode ∧
    (alSetMode st props).counterAxisSizingMode = st.counterAxisSizingMode := by
  unfold alSetMode
  try dsimp only
  repeat' split
  all_goals exact ⟨rfl, rfl, rfl, rfl⟩

theorem alPrimaryAlign_keepsGeo (st : FrameState) (props : DesignProps) :
    (alPrimaryAlign st props).width = st.width ∧
    (alPrimaryAlign st props).height = st.height ∧
    (alPrimaryAlign st props).layoutMode = st.layoutMode ∧
    (alPrimaryAlign st props).primaryAxisSizingMode = st.primaryAxisSizingMode ∧
    (alPrimaryAlign st props).counterAxisSizingMode = st.counterAxisSizingMode := by
  unfold alPrimaryAlign
  try dsimp only
  repeat' split
  all_goals exact ⟨rfl, rfl, rfl, rfl, rfl⟩

theorem alCounterAlign_keepsGeo (st : FrameState) (props : DesignProps) :
    (alCounterAlign st props).width = st.width ∧
    (alCounterAlign st props).height = st.height ∧
    (alCounterAlign st props).layoutMode = st.layoutMode ∧
    (alCounterAlign st props).primaryAxisSizingMode = st.primaryAxisSizingMode ∧
    (alCounterAlign st props).counterAxisSizingMode = st.counterAxisSizingMode := by
  unfold alCounterAlign
  try dsimp only
  repeat' split
  all_goals exact ⟨rfl, rfl, rfl, rfl, rfl⟩

theorem alItemSpacing_keepsGeo (caches : StyleCaches) (st : FrameState) (props : DesignProps) :
    (alItemSpacing caches st props).width = st.width ∧
    (alItemSpacing caches st props).height = st.height ∧
    (alItemSpacing caches st props).layoutMode = st.layoutMode ∧
    (alItemSpacing caches st props).primaryAxisSizingMode = st.primaryAxisSizingMode ∧
    (alItemSpacing caches st props).counterAxisSizingMode = st.counterAxisSizingMode := by
  unfold alItemSpacing
  try dsimp only
  repeat' split
  all_goals exact ⟨rfl, rfl, rfl, rfl, rfl⟩

theorem alPadding_keepsGeo (caches : StyleCaches) (st : FrameState) (props : DesignProps) :
    (alPadding caches st props).width = st.width ∧
    (alPadding caches st props).height = st.height ∧
    (alPadding caches st props).layoutMode = st.layoutMode ∧
    (alPadding caches st props).primaryAxisSizingMode = st.primaryAxisSizingMode ∧
    (alPadding caches st props).counterAxisSizingMode = st.counterAxisSizingMode := by
  unfold alPadding
  try dsimp only
  repeat' split
  all_goals exact ⟨rfl, rfl, rfl, rfl, rfl⟩

theorem alPrimarySizing_keepsGeo (st : FrameState) (props : DesignProps) :
    (alPrimarySizing st props).width = st.width ∧
    (alPrimarySizing st props).height = st.height ∧
    (alPrimarySizing st props).layoutMode = st.layoutMode ∧
    (alPrimarySizing st props).counterAxisSizingMode = st.counterAxisSizingMode := by
  unfold alPrimarySizing
  try dsimp only
  repeat' split
  all_goals exact ⟨rfl, rfl, rfl, rfl⟩

theorem alCounterSizing_keepsGeo (st : FrameState) (props : DesignProps) :
    (alCounterSizing st props).width = st.width ∧
    (alCounterSizing st props).height = st.height ∧
    (alCounterSizing st props).layoutMode = st.layoutMode ∧
    (alCounterSizing st props).primaryAxisSizingMode = st.primaryAxisSizingMode := by
  unfold alCounterSizing
  try dsimp only
  repeat' split
  all_goals exact ⟨rfl, rfl, rfl, rfl⟩

theorem afpFills_keepsGeo (env : RenderEnv) (st : FrameState) (props : DesignProps) :
    (afpFills env st props).width = st.width ∧
    (afpFills env st props).height = st.height ∧
    (afpFills env st props).layoutMode = st.layoutMode ∧
    (afpFills env st props).primaryAxisSizingMode = st.primaryAxisSizingMode ∧
    (afpFills env st props).counterAxisSizingMode = st.counterAxisSizingMode := by
  unfold afpFills
  try dsimp only
  repeat' split
  all_goals exact ⟨rfl, rfl, rfl, rfl, rfl⟩

theorem afpStrokes_keepsGeo (env : RenderEnv) (st : FrameState) (props : DesignProps) :
    (afpStrokes env st props).width = st.width ∧
    (afpStrokes env st props).height = st.height ∧
    (afpStrokes env st props).layoutMode = st.layoutMode ∧
    (afpStrokes env st props).primaryAxisSizingMode = st.primaryAxisSizingMode ∧
    (afpStrokes env st props).counterAxisSizingMode = st.counterAxisSizingMode := by
  unfold afpStrokes
  try dsimp only
  repeat' split
  all_goals exact ⟨rfl, rfl, rfl, rfl, rfl⟩

theorem afpStrokeWeight_keepsGeo (st : FrameState) (props : DesignProps) :
    (afpStrokeWeight st props).width = st.width ∧
    (afpStrokeWeight st props).height = st.height ∧
    (afpStrokeWeight st props).layoutMode = st.layoutMode ∧
    (afpStrokeWeight st props).primaryAxisSizingMode = st.primaryAxisSizingMode ∧
    (afpStrokeWeight st props).counterAxisSizingMode = st.counterAxisSizingMode := by
  unfold afpStrokeWeight
  try dsimp only
  repeat' split
  all_goals exact ⟨rfl, rfl, rfl, rfl, rfl⟩

theorem afpCorner_keepsGeo (st : FrameState) (props : DesignProps) :
    (afpCorner st props).width = st.width ∧
    (afpCorner st props).height = st.height ∧
    (afpCorner st props).layoutMode = st.layoutMode ∧
    (afpCorner st props).primaryAxisSizingMode = st.primaryAxisSizingMode ∧
    (afpCorner st props).counterAxisSizingMode = st.counterAxisSizingMode := by
  unfold afpCorner
  try dsimp only
  repeat' split
  all_goals exact ⟨rfl, rfl, rfl, rfl, rfl⟩

theorem afpEffects_keepsGeo (st : FrameState) (props : DesignProps) :
    (afpEffects st props).width = st.width ∧
    (afpEffects st props).height = st.height ∧
    (afpEffects st props).layoutMode = st.layoutMode ∧
    (afpEffects st props).primaryAxisSizingMode = st.primaryAxisSizingMode ∧
    (afpEffects st props).counterAxisSizingMode = st.counterAxisSizingMode := by
  unfold afpEffects
  try dsimp only
  repeat' split
  all_goals exact ⟨rfl, rfl, rfl, rfl, rfl⟩

theorem afpClips_keepsGeo (st : FrameState) (props : DesignProps) :
    (afpClips st props).width = st.width ∧
    (afpClips st props).height = st.height ∧
    (afpClips st props).layoutMode = st.layoutMode ∧
    (afpClips st props).primaryAxisSizingMode = st.primaryAxisSizingMode ∧
    (afpClips st props).counterAxisSizingMode = st.counterAxisSizingMode := by
  unfold afpClips
  try dsimp only
  repeat' split
  all_goals exact ⟨rfl, rfl, rfl, rfl, rfl⟩

theorem afpOpacity_keepsGeo (st : FrameState) (props : DesignProps) :
    (afpOpacity st props).width = st.width ∧
    (afpOpacity st props).height = st.height ∧
    (afpOpacity st props).layoutMode = st.layoutMode ∧
    (afpOpacity st props).primaryAxisSizingMode = st.primaryAxisSizingMode ∧
    (afpOpacity st props).counterAxisSizingMode = st.counterAxisSizingMode := by
  unfold afpOpacity
  try dsimp only
  repeat' split
  all_goals exact ⟨rfl, rfl, rfl, rfl, rfl⟩

theorem afpAbsPos_keepsGeo (st : FrameState) (props : DesignProps) :
    (afpAbsPos st props).width = st.width ∧
    (afpAbsPos st props).height = st.height ∧
    (afpAbsPos st props).layoutMode = st.layoutMode ∧
    (afpAbsPos st props).primaryAxisSizingMode = st.primaryAxisSizingMode ∧
    (afpAbsPos st props).counterAxisSizingMode = st.counterAxisSizingMode := by
  unfold afpAbsPos
  try dsimp only
  repeat' split
  all_goals exact ⟨rfl, rfl, rfl, rfl, rfl⟩

theorem afpAlign_keepsGeo (st : FrameState) (props : DesignProps) :
    (afpAlign st props).width = st.width ∧
    (afpAlign st props).height = st.height ∧
    (afpAlign st props).layoutMode = st.layoutMode ∧
    (afpAlign st props).primaryAxisSizingMode = st.primaryAxisSizingMode ∧
    (afpAlign st props).counterAxisSizingMode = st.counterAxisSizingMode := by
  unfold afpAlign
  try dsimp only
  repeat' split
  all_goals exact ⟨rfl, rfl, rfl, rfl, rfl⟩

theorem afpGrow_keepsGeo (st : FrameState) (props : DesignProps) :
    (afpGrow st props).width = st.width ∧
    (afpGrow st props).height = st.height ∧
    (afpGrow st props).layoutMode = st.layoutMode ∧
    (afpGrow st props).primaryAxisSizingMode = st.primaryAxisSizingMode ∧
    (afpGrow st props).counterAxisSizingMode = st.counterAxisSizingMode := by
  unfold afpGrow
  try dsimp only
  repeat' split
  all_goals exact ⟨rfl, rfl, rfl, rfl, rfl⟩

theorem afpRest_keepsGeo (st : FrameState) (props : DesignProps) :
    (afpRest st props).width = st.width ∧
    (afpRest st props).height = st.height ∧
    (afpRest st props).layoutMode = st.layoutMode ∧
    (afpRest st props).primaryAxisSizingMode = st.primaryAxisSizingMode ∧
    (afpRest st props).counterAxisSizingMode = st.counterAxisSizingMode := by
  unfold afpRest
  refine ⟨?_, ?_, ?_, ?_, ?_⟩
  · rw [(afpGrow_keepsGeo _ _).1, (afpAlign_keepsGeo _ _).1, (afpAbsPos_keepsGeo _ _).1, (afpOpacity_keepsGeo _ _).1, (afpClips_keepsGeo _ _).1, (afpEffects_keepsGeo _ _).1, (afpCorner_keepsGeo _ _).1, (afpStrokeWeight_keepsGeo _ _).1]
  · rw [(afpGrow_keepsGeo _ _).2.1, (afpAlign_keepsGeo _ _).2.1, (afpAbsPos_keepsGeo _ _).2.1, (afpOpacity_keepsGeo _ _).2.1, (afpClips_keepsGeo _ _).2.1, (afpEffects_keepsGeo _ _).2.1, (afpCorner_keepsGeo _ _).2.1, (afpStrokeWeight_keepsGeo _ _).2.1]
  · rw [(afpGrow_keepsGeo _ _).2.2.1, (afpAlign_keepsGeo _ _).2.2.1, (afpAbsPos_keepsGeo _ _).2.2.1, (afpOpacity_keepsGeo _ _).2.2.1, (afpClips_keepsGeo _ _).2.2.1, (afpEffects_keepsGeo _ _).2.2.1, (afpCorner_keepsGeo _ _).2.2.1, (afpStrokeWeight_keepsGeo _ _).2.2.1]
  · rw [(afpGrow_keepsGeo _ _).2.2.2.1, (afpAlign_keepsGeo _ _).2.2.2.1, (afpAbsPos_keepsGeo _ _).2.2.2.1, (afpOpacity_keepsGeo _ _).2.2.2.1, (afpClips_keepsGeo _ _).2.2.2.1, (afpEffects_keepsGeo _ _).2.2.2.1, (afpCorner_keepsGeo _ _).2.2.2.1, (afpStrokeWeight_keepsGeo _ _).2.2.2.1]
  · rw [(afpGrow_keepsGeo _ _).2.2.2.2, (afpAlign_keepsGeo _ _).2.2.2.2, (afpAbsPos_keepsGeo _ _).2.2.2.2, (afpOpacity_keepsGeo _ _).2.2.2.2, (afpClips_keepsGeo _ _).2.2.2.2, (afpEffects_keepsGeo _ _).2.2.2.2, (afpCorner_keepsGeo _ _).2.2.2.2, (afpStrokeWeight_keepsGeo _ _).2.2.2.2]

theorem applyFrameProperties_geo (env : RenderEnv) (st : FrameState)
    (props : DesignProps) :
    (applyFrameProperties env st props).width =
      (afpAutoLayout env.caches (afpSize st props) props).width ∧
    (applyFrameProperties env st props).height =
      (afpAutoLayout env.caches (afpSize st props) props).height ∧
    (applyFrameProperties env st props).layoutMode =
      (afpAutoLayout env.caches (afpSize st props) props).layoutMode ∧
    (applyFrameProperties env st props).primaryAxisSizingMode =
      (afpAutoLayout env.caches (afpSize st props) props).primaryAxisSizingMode ∧
    (applyFrameProperties env st props).counterAxisSizingMode =
      (afpAutoLayout env.caches (afpSize st props) props).counterAxisSizingMode := by
  unfold applyFrameProperties
  refine ⟨?_, ?_, ?_, ?_, ?_⟩
  · rw [(afpRest_keepsGeo _ _).1, (afpStrokes_keepsGeo _ _ _).1, (afpFills_keepsGeo _ _ _).1]
  · rw [(afpRest_keepsGeo _ _).2.1, (afpStrokes_keepsGeo _ _ _).2.1, (afpFills_keepsGeo _ _ _).2.1]
  · rw [(afpRest_keepsGeo _ _).2.2.1, (afpStrokes_keepsGeo _ _ _).2.2.1, (afpFills_keepsGeo _ _ _).2.2.1]
  · rw [(afpRest_keepsGeo _ _).2.2.2.1, (afpStrokes_keepsGeo _ _ _).2.2.2.1, (afpFills_keepsGeo _ _ _).2.2.2.1]
  · rw [(afpRest_keepsGeo _ _).2.2.2.2, (afpStrokes_keepsGeo _ _ _).2.2.2.2, (afpFills_keepsGeo _ _ _).2.2.2.2]

theorem afpAutoLayout_not_auto (caches : StyleCaches) (st : FrameState)
    (props : DesignProps)
    (hc : (strTruthy props.layoutMode && !(props.layoutMode == some "NONE")) = false) :
    afpAutoLayout caches st props = st := by
  unfold afpAutoLayout
  simp [hc]

theorem afpAutoLayout_geoAuto (caches : StyleCaches) (st : FrameState)
    (props : DesignProps)
    (hl : strTruthy props.layoutMode = true)
    (hn : (props.layoutMode == some "NONE") = false) :
    (afpAutoLayout caches st props).width = st.width ∧
    (afpAutoLayout caches st props).height = st.height ∧
    (afpAutoLayout caches st props).layoutMode = props.layoutMode := by
  rw [afpAutoLayout_cond _ _ _ hl hn]
  refine ⟨?_, ?_, ?_⟩
  · rw [(alCounterSizing_keepsGeo _ _).1, (alPrimarySizing_keepsGeo _ _).1,
        (alPadding_keepsGeo _ _ _).1, (alItemSpacing_keepsGeo _ _ _).1,
        (alCounterAlign_keepsGeo _ _).1, (alPrimaryAlign_keepsGeo _ _).1,
        (alSetMode_keepsGeo _ _).1]
  · rw [(alCounterSizing_keepsGeo _ _).2.1, (alPrimarySizing_keepsGeo _ _).2.1,
        (alPadding_keepsGeo _ _ _).2.1, (alItemSpacing_keepsGeo _ _ _).2.1,
        (alCounterAlign_keepsGeo _ _).2.1, (alPrimaryAlign_keepsGeo _ _).2.1,
        (alSetMode_keepsGeo _ _).2.1]
  · rw [(alCounterSizing_keepsGeo _ _).2.2.1, (alPrimarySizing_keepsGeo _ _).2.2.1,
        (alPadding_keepsGeo _ _ _).2.2.1, (alItemSpacing_keepsGeo _ _ _).2.2.1,
        (alCounterAlign_keepsGeo _ _).2.2.1, (alPrimaryAlign_keepsGeo _ _).2.2.1]
    rfl

theorem alPrimarySizing_isSome (st : FrameState) (props : DesignProps)
    (h : sizingModeDeclOk props.primaryAxisSizingMode = true) :
    (alPrimarySizing st props).primaryAxisSizingMode.isSome = true := by
  unfold sizingModeDeclOk at h
  unfold alPrimarySizing
  by_cases hs : strTruthy props.primaryAxisSizingMode = true
  · rw [if_pos hs] at h
    rw [if_pos hs]
    by_cases hH : (props.primaryAxisSizingMode.getD "" == "HUG") = true
    · simp [hH]
    · by_cases hF : (props.primaryAxisSizingMode.getD "" == "FIXED") = true
      · simp [hH, hF]
      · have hL : (props.primaryAxisSizingMode.getD "" == "FILL") = true := by
          simp [hH, hF] at h; simpa using h
        simp [hH, hF, hL]
  · have hs2 : strTruthy props.primaryAxisSizingMode = false := by
      rw [← Bool.not_eq_true]; exact hs
    simp [hs2]

theorem alCounterSizing_isSome (st : FrameState) (props : DesignProps)
    (h : sizingModeDeclOk props.counterAxisSizingMode = true) :
    (alCounterSizing st props).counterAxisSizingMode.isSome = true := by
  unfold sizingModeDeclOk at h
  unfold alCounterSizing
  by_cases hs : strTruthy props.counterAxisSizingMode = true
  · rw [if_pos hs] at h
    rw [if_pos hs]
    by_cases hH : (props.counterAxisSizingMode.getD "" == "HUG") = true
    · simp [hH]
    · by_cases hF : (props.counterAxisSizingMode.getD "" == "FIXED") = true
      · simp [hH, hF]
      · have hL : (props.counterAxisSizingMode.getD "" == "FILL") = true := by
          simp [hH, hF] at h; simpa using h
        simp [hH, hF, hL]
  · have hs2 : strTruthy props.counterAxisSizingMode = false := by
      rw [← Bool.not_eq_true]; exact hs
    simp [hs2]

theorem afpSize_pos (st : FrameState) (props : DesignProps)
    (hdims : propsDimsPos props = true)
    (hw : posQ st.width = true) (hh : posQ st.height = true) :
    posQ (afpSize st props).width = true ∧ posQ (afpSize st props).height = true := by
  unfold afpSize
  rcases hpw : props.width with _ | w <;> rcases hph : props.height with _ | h
  · exact ⟨hw, hh⟩
  · exact ⟨hw, hh⟩
  · exact ⟨hw, hh⟩
  · unfold propsDimsPos at hdims
    rw [hpw, hph] at hdims
    exact (Bool.and_eq_true _ _).mp hdims

theorem applyFrameProperties_sized (env : RenderEnv) (props : DesignProps) (nm : String)
    (hdecl : propsSizingDeclOk props = true) (hdims : propsDimsPos props = true) :
    frameSizedOk (applyFrameProperties env { name := nm } props) = true := by
  have hgeo := applyFrameProperties_geo env { name := nm } props
  obtain ⟨hdp, hdc⟩ := (Bool.and_eq_true _ _).mp hdecl
  by_cases hc : (strTruthy props.layoutMode && !(props.layoutMode == some "NONE")) = true
  · obtain ⟨hl, hn0⟩ := (Bool.and_eq_true _ _).mp hc
    have hn : (props.layoutMode == some "NONE") = false := by
      rwa [Bool.not_eq_true'] at hn0
    have hgA := afpAutoLayout_geoAuto env.caches (afpSize { name := nm } props) props hl hn
    have hpos := afpSize_pos { name := nm } props hdims rfl rfl
    have hPS : (applyFrameProperties env { name := nm } props).primaryAxisSizingMode.isSome
        = true := by
      rw [hgeo.2.2.2.1, afpAutoLayout_cond _ _ _ hl hn,
          (alCounterSizing_keepsGeo _ _).2.2.2]
      exact alPrimarySizing_isSome _ _ hdp
    have hCS : (applyFrameProperties env { name := nm } props).counterAxisSizingMode.isSome
        = true := by
      rw [hgeo.2.2.2.2, afpAutoLayout_cond _ _ _ hl hn]
      exact alCounterSizing_isSome _ _ hdc
    have hW : posQ (applyFrameProperties env { name := nm } props).width = true := by
      rw [hgeo.1, hgA.1]; exact hpos.1
    have hH : posQ (applyFrameProperties env { name := nm } props).height = true := by
      rw [hgeo.2.1, hgA.2.1]; exact hpos.2
    have hL : (applyFrameProperties env { name := nm } props).layoutMode = props.layoutMode := by
      rw [hgeo.2.2.1, hgA.2.2]
    unfold frameSizedOk
    rw [hL]
    rcases hpm : props.layoutMode with _ | m
    · rfl
    · rw [hpm] at hn
      have hm : (m == "NONE") = false := by simpa using hn
      simp [hm, hPS, hCS, hW, hH]
  · have hc2 : (strTruthy props.layoutMode && !(props.layoutMode == some "NONE")) = false := by
      rwa [← Bool.not_eq_true]
    have hL : (applyFrameProperties env { name := nm } props).layoutMode = none := by
      rw [hgeo.2.2.1, afpAutoLayout_not_auto _ _ _ hc2, (afpSize_keepsGeo _ _).1]
    unfold frameSizedOk
    rw [hL]

theorem renderElement_all_sized (env : RenderEnv) :
    ∀ e : Element, elemDeclOk e = true → rnodeSizedOk (renderElement env e) = true := by
  intro e
  refine @Element.rec
    (fun e => elemDeclOk e = true → rnodeSizedOk (renderElement env e) = true)
    (fun es => elemsDeclOk es = true → rnodesSizedOk (renderChildren env es) = true)
    ?_ ?_ ?_ e
  · intro props children ih h
    unfold elemDeclOk at h
    obtain ⟨h12, h3⟩ := (Bool.and_eq_true _ _).mp h
    obtain ⟨h1, h2⟩ := (Bool.and_eq_true _ _).mp h12
    have hframe : rnodeSizedOk
        (RNode.frameN (applyFrameProperties env { name := jsOr props.name "Frame" } props)
          (renderChildren env children)) = true := by
      have hs := applyFrameProperties_sized env props (jsOr props.name "Frame") h1 h2
      simp [rnodeSizedOk, hs, ih h3]
    unfold renderElement
    repeat' split
    all_goals first
      | rfl
      | exact hframe
  · intro _
    rfl
  · intro head tail ihH ihT h
    unfold elemsDeclOk at h
    obtain ⟨h1, h2⟩ := (Bool.and_eq_true _ _).mp h
    unfold renderChildren
    simp [rnodesSizedOk, ihH h1, ihT h2]

theorem renderChildren_all_sized (env : RenderEnv) :
    ∀ es : List Element, elemsDeclOk es = true →
      rnodesSizedOk (renderChildren env es) = true := by
  intro es
  induction es with
  | nil => intro _; rfl
  | cons e es ih =>
    intro h
    unfold elemsDeclOk at h
    obtain ⟨h1, h2⟩ := (Bool.and_eq_true _ _).mp h
    unfold renderChildren
    simp [rnodesSizedOk, renderElement_all_sized env e h1, ih h2]

theorem frameSizedOk_forced (st : FrameState) (vp1 vp2 : ℚ)
    (h1 : posQ vp1 = true) (h2 : posQ vp2 = true) :
    frameSizedOk
      { st with primaryAxisSizingMode := some "FIXED",
                counterAxisSizingMode := some "FIXED",
                width := vp1, height := vp2 } = true := by
  unfold frameSizedOk
  rcases hm : st.layoutMode with _ | m
  · simp [hm]
  · by_cases hne : (m == "NONE") = true
    · simp [hm, hne]
    · have hne2 : (m == "NONE") = false := by rwa [← Bool.not_eq_true]
      simp [hm, hne2, h1, h2]

/-- C4 (counterexample): an auto-layout node declaring the sizing mode
`"AUTO"` (not one of HUG/FIXED/FILL): the rendered frame has
`layoutMode = VERTICAL` and a defaulted counter-axis mode, but its
primary-axis sizing mode was never assigned by the pass — the declared
mode is truthy, so the default branch is skipped, and no mapping branch
matches. -/
theorem declared_auto_sizing_left_unassigned :
    (rnodeFrameState (renderElement emptyEnv autoSizingElement)).map
        (fun st => st.layoutMode) = some (some "VERTICAL") ∧
    (rnodeFrameState (renderElement emptyEnv autoSizingElement)).map
        (fun st => st.primaryAxisSizingMode) = some none ∧
    (rnodeFrameState (renderElement emptyEnv autoSizingElement)).map
        (fun st => st.counterAxisSizingMode) = some (some "AUTO") :=
  ⟨rfl, rfl, rfl⟩

/-- C4 (amended): whenever every declared sizing mode in the tree is
recognized (absent/falsy, or one of HUG/FIXED/FILL) and every declared
dimension is positive, the render pass assigns both sizing modes of
every auto-layout frame concretely (defaulting to `AUTO` for absent
declarations) and every such frame's extent is positive on both axes;
the root frame is forced to `FIXED`/`FIXED` at the (positive) viewport
extent.  A declared but unrecognized mode (such as `"AUTO"`) is instead
left to the host default, per the counterexample. -/
theorem auto_layout_sizing_established :
    (∀ (env : RenderEnv) (e : Element), elemDeclOk e = true →
        rnodeSizedOk (renderElement env e) = true) ∧
    (∀ (env : RenderEnv) (props : DesignProps) (children : List Element) (vp : ℚ × ℚ),
        elemsDeclOk children = true → posQ vp.1 = true → posQ vp.2 = true →
        rnodeSizedOk (renderDesign env (.node props children) vp).2 = true) := by
  refine ⟨renderElement_all_sized, ?_⟩
  intro env props children vp hch hv1 hv2
  unfold renderDesign
  dsimp only
  simp [rnodeSizedOk, frameSizedOk_forced _ _ _ hv1 hv2,
        renderChildren_all_sized env children hch]

/-- C4 (witness): the tree half of the theorem applied to a concrete
auto-layout element declaring `HUG`. -/
theorem auto_layout_sizing_established_witness :
    rnodeSizedOk (renderElement emptyEnv
      (.node { type := some "FRAME", layoutMode := some "VERTICAL",
               primaryAxisSizingMode := some "HUG" } [])) = true :=
  auto_layout_sizing_established.1 emptyEnv
    (.node { type := some "FRAME", layoutMode := some "VERTICAL",
             primaryAxisSizingMode := some "HUG" } []) rfl


/-! ### C8: prompt-builder containment machinery

Kernel evaluation of the whole 4k-character prompt is out of reach, so
containment facts are settled chunkwise: `strIncludes` is characterized
as list-infix, and infix (non-)membership is transported along the
append decomposition of the prompt, re-scanning only an
`(needle-length - 1)`-character overlap at each chunk boundary. -/

lemma firstOccur_cons_isSome (sub : List Char) (c : Char) (rest : List Char) :
    (firstOccur sub (c :: rest)).isSome =
      (sub.isPrefixOf (c :: rest) || (firstOccur sub rest).isSome) := by
  by_cases hp : sub.isPrefixOf (c :: rest) <;>
    simp only [firstOccur, hp, if_true, if_false, Bool.true_or, Bool.false_or,
      Option.isSome_some] <;>
    cases h : firstOccur sub rest <;> simp [h]

/-- `String.includes`-style scanning agrees with list infix. -/
lemma strIncludes_iff (hay sub : List Char) :
    strIncludes hay sub = true ↔ sub <:+: hay := by
  induction hay with
  | nil =>
    cases sub <;> simp [strIncludes, firstOccur, List.isEmpty]
  | cons c rest ih =>
    show (firstOccur sub (c :: rest)).isSome = true ↔ _
    rw [firstOccur_cons_isSome, List.infix_cons_iff, Bool.or_eq_true]
    constructor
    · rintro (h | h)
      · exact Or.inl (by simpa using h)
      · exact Or.inr (ih.mp h)
    · rintro (h | h)
      · exact Or.inl (by simpa using h)
      · exact Or.inr (ih.mpr h)

lemma infix_of_scan {hay sub : List Char} (h : strIncludes hay sub = true) :
    sub <:+: hay := (strIncludes_iff hay sub).mp h

lemma not_infix_of_scan {hay sub : List Char} (h : strIncludes hay sub = false) :
    ¬ sub <:+: hay := fun hi => by
  rw [(strIncludes_iff hay sub).mpr hi] at h
  exact Bool.noConfusion h

lemma scan_eq_false_of_not {hay sub : List Char} (h : ¬ sub <:+: hay) :
    strIncludes hay sub = false := by
  cases hs : strIncludes hay sub
  · rfl
  · exact absurd (infix_of_scan hs) h

lemma infix_append_right_of {sub a b : List Char} (h : sub <:+: b) :
    sub <:+: a ++ b := by
  obtain ⟨s, t, hst⟩ := h
  exact ⟨a ++ s, t, by rw [← hst]; simp [List.append_assoc]⟩

lemma infix_append_left_of {sub a b : List Char} (h : sub <:+: a) :
    sub <:+: a ++ b := by
  obtain ⟨s, t, hst⟩ := h
  exact ⟨s, t ++ b, by rw [← hst]; simp [List.append_assoc]⟩

/-- An occurrence of `sub` in `a ++ rest` lies inside `a` or inside the
last `|sub| - 1` characters of `a` glued to `rest`. -/
lemma not_infix_step {sub a rest : List Char} (k : Nat)
    (hk : k + sub.length ≤ a.length + 1)
    (h1 : strIncludes a sub = false)
    (h2 : ¬ sub <:+: (a.drop k ++ rest)) : ¬ sub <:+: (a ++ rest) := by
  intro h
  obtain ⟨s, t, hst⟩ := h
  by_cases hsl : s.length + sub.length ≤ a.length
  · apply not_infix_of_scan h1
    have hpre : s ++ sub <+: a ++ rest := ⟨t, by rw [← hst]⟩
    have hpa : s ++ sub <+: a :=
      List.prefix_of_prefix_length_le hpre (List.prefix_append a rest)
        (by simpa using hsl)
    exact List.IsInfix.trans ⟨s, [], by simp⟩ hpa.isInfix
  · apply h2
    have hone : 1 ≤ sub.length := by
      rcases sub with _ | ⟨c1, cs⟩
      · exact absurd ⟨[], a, by simp⟩ (not_infix_of_scan h1)
      · simp
    have hks : k ≤ s.length := by omega
    have hka : k ≤ a.length := by omega
    refine ⟨s.drop k, t, ?_⟩
    have hks2 : k ≤ (s ++ sub).length := by
      rw [List.length_append]
      omega
    calc s.drop k ++ sub ++ t
        = ((s ++ sub).drop k) ++ t := by rw [List.drop_append_of_le_length hks]
      _ = ((s ++ sub) ++ t).drop k := (List.drop_append_of_le_length hks2).symm
      _ = (a ++ rest).drop k := by rw [hst]
      _ = a.drop k ++ rest := List.drop_append_of_le_length hka

lemma infix_of_take (n : Nat) {sub l : List Char} (h : sub <:+: l.take n) :
    sub <:+: l := h.trans (List.take_prefix n l).isInfix

lemma infix_of_drop (n : Nat) {sub l : List Char} (h : sub <:+: l.drop n) :
    sub <:+: l := h.trans (List.drop_suffix n l).isInfix

/-- Soundness of the windowed scanner: if every window (with overlap)
is occurrence-free, the needle is not an infix of the whole list. -/
lemma noOccurW_sound (sub : List Char) (w : Nat) (fuel : Nat) :
    ∀ l : List Char, noOccurW sub w fuel l = true → ¬ sub <:+: l := by
  induction fuel with
  | zero =>
    intro l h
    exact not_infix_of_scan (by simpa [noOccurW] using h)
  | succ fuel ih =>
    intro l h
    by_cases hemp : (l.drop (w + (sub.length - 1))).isEmpty = true
    · rw [noOccurW, if_pos hemp] at h
      exact not_infix_of_scan (by simpa using h)
    · rw [noOccurW, if_neg hemp] at h
      obtain ⟨h1, h2⟩ := (Bool.and_eq_true _ _).mp h
      have hlen : w + (sub.length - 1) < l.length := by
        rcases Nat.lt_or_ge (w + (sub.length - 1)) l.length with hlt | hge
        · exact hlt
        · exact absurd (by simp [List.drop_eq_nil_iff.mpr hge]) hemp
      have hk : w + sub.length ≤ (l.take (w + (sub.length - 1))).length + 1 := by
        rw [List.length_take]
        omega
      have e2 : List.drop w l =
          (l.take (w + (sub.length - 1))).drop w ++ l.drop (w + (sub.length - 1)) := by
        conv_lhs => rw [← List.take_append_drop (w + (sub.length - 1)) l]
        rw [List.drop_append_of_le_length]
        rw [List.length_take]
        omega
      have h2' : ¬ sub <:+: ((l.take (w + (sub.length - 1))).drop w ++
          l.drop (w + (sub.length - 1))) := by
        rw [← e2]
        exact ih _ h2
      have h3 := not_infix_step w hk (by simpa using h1) h2'
      rwa [List.take_append_drop] at h3

/-- The fallback prompt, split at its interpolation points (mirrors the
append structure of `buildSystemPrompt` exactly, so this is definitional
without evaluating the long segments). -/
lemma fbPrompt_decomp :
    fbPrompt = promptHead ++ "375" ++ "x" ++ "812" ++ "px (" ++ "Mobile" ++
      promptGuidelines ++ fbPalette ++ finalSeg := rfl

lemma fbPrompt_data :
    fbPrompt.data = promptHead.data ++ ("375".data ++ ("x".data ++ ("812".data ++
      ("px (".data ++ ("Mobile".data ++ (promptGuidelines.data ++
      (fbPalette.data ++ finalSeg.data))))))) := by
  rw [fbPrompt_decomp]
  simp [List.append_assoc]

/-- The design-system prompt for `dsSampleCtx`, split likewise. -/
lemma dsPrompt_decomp :
    dsPrompt = promptHead ++ "375" ++ "x" ++ "812" ++ "px (" ++ "Mobile" ++
      promptGuidelines ++ dsHeaderSeg ++ colorsSegA ++
      "- \"Background/Primary\"" ++ colorsSegB ++ strictRulesSeg ++ finalSeg := rfl

lemma dsPrompt_data :
    dsPrompt.data = promptHead.data ++ ("375".data ++ ("x".data ++ ("812".data ++
      ("px (".data ++ ("Mobile".data ++ (promptGuidelines.data ++
      (dsHeaderSeg.data ++ (colorsSegA.data ++ ("- \"Background/Primary\"".data ++
      (colorsSegB.data ++ (strictRulesSeg.data ++ finalSeg.data))))))))))) := by
  rw [dsPrompt_decomp]
  simp [List.append_assoc]

set_option maxRecDepth 200000 in
lemma fbPrompt_no_mandatory : ¬ ("MANDATORY USAGE".data <:+: fbPrompt.data) :=
  noOccurW_sound "MANDATORY USAGE".data 400 13 fbPrompt.data (by rfl)

set_option maxRecDepth 200000 in
lemma fbPrompt_no_strict : ¬ ("STRICT TOKEN RULES".data <:+: fbPrompt.data) :=
  noOccurW_sound "STRICT TOKEN RULES".data 400 13 fbPrompt.data (by rfl)

set_option maxRecDepth 200000 in
lemma fbPrompt_has_hex : strIncludes fbPrompt.data "#18A0FB".data = true :=
  (strIncludes_iff _ _).mpr (by
    rw [fbPrompt_data]
    exact infix_append_right_of (infix_append_right_of (infix_append_right_of
      (infix_append_right_of (infix_append_right_of (infix_append_right_of
      (infix_append_right_of (infix_append_left_of
        (infix_of_take 200 (infix_of_scan (by rfl)))))))))))

set_option maxRecDepth 200000 in
lemma fbPrompt_has_triple :
    strIncludes fbPrompt.data
      "\x7b \"r\": 0.09, \"g\": 0.63, \"b\": 0.98 \x7d (#18A0FB)".data = true :=
  (strIncludes_iff _ _).mpr (by
    rw [fbPrompt_data]
    exact infix_append_right_of (infix_append_right_of (infix_append_right_of
      (infix_append_right_of (infix_append_right_of (infix_append_right_of
      (infix_append_right_of (infix_append_left_of
        (infix_of_take 200 (infix_of_scan (by rfl)))))))))))

set_option maxRecDepth 200000 in
/-- C8 (counterexample): the claim says the fallback prompt (no design
system, default palette) contains no mandatory-token-usage rule text;
in fact the unconditionally appended Important Rules block closes with
rule 8, which commands the model to always use design tokens. -/
theorem fallback_prompt_mandates_tokens :
    strIncludes fbPrompt.data
      ("8. ALWAYS use design tokens - colorVariable, paddingVariable, itemSpacingVariable, textStyleName".data)
      = true :=
  (strIncludes_iff _ _).mpr (by
    rw [fbPrompt_data]
    exact infix_append_right_of (infix_append_right_of (infix_append_right_of
      (infix_append_right_of (infix_append_right_of (infix_append_right_of
      (infix_append_right_of (infix_append_right_of
        (infix_of_drop 1220 (infix_of_scan (by rfl)))))))))))

set_option maxRecDepth 200000 in
/-- C8 (amended): the fallback prompt shows `#18A0FB` both bare and as a
0-1 channel triple with the hex, and carries neither the
`MANDATORY USAGE` header nor the `STRICT TOKEN RULES` block; both of
those appear in the design-system branch's output (here for a snapshot
with one color variable).  (The always-appended rule 8 still tells the
model to use design tokens; see the counterexample.) -/
theorem buildSystemPrompt_token_blocks :
    strIncludes fbPrompt.data "#18A0FB".data = true ∧
    strIncludes fbPrompt.data
      "\x7b \"r\": 0.09, \"g\": 0.63, \"b\": 0.98 \x7d (#18A0FB)".data = true ∧
    strIncludes fbPrompt.data "MANDATORY USAGE".data = false ∧
    strIncludes fbPrompt.data "STRICT TOKEN RULES".data = false ∧
    strIncludes dsPrompt.data "MANDATORY USAGE".data = true ∧
    strIncludes dsPrompt.data "STRICT TOKEN RULES".data = true := by
  refine ⟨fbPrompt_has_hex, fbPrompt_has_triple,
    scan_eq_false_of_not fbPrompt_no_mandatory,
    scan_eq_false_of_not fbPrompt_no_strict, ?_, ?_⟩
  · exact (strIncludes_iff _ _).mpr (by
      rw [dsPrompt_data]
      exact infix_append_right_of (infix_append_right_of (infix_append_right_of
        (infix_append_right_of (infix_append_right_of (infix_append_right_of
        (infix_append_right_of (infix_append_left_of (infix_of_scan (by rfl))))))))))
  · exact (strIncludes_iff _ _).mpr (by
      rw [dsPrompt_data]
      exact infix_append_right_of (infix_append_right_of (infix_append_right_of
        (infix_append_right_of (infix_append_right_of (infix_append_right_of
        (infix_append_right_of (infix_append_right_of (infix_append_right_of
        (infix_append_right_of (infix_append_right_of (infix_append_left_of
        (infix_of_scan (by rfl))))))))))))))

end AIDesigner
